import Mathlib

/-!
Shallow embedding of the obeLST-Native single-validator liquid-staking pool
controller (src/processor.rs, src/state.rs, src/utils.rs, src/error.rs).

Machine integers are modelled as Nat with explicit bounds: u64 values live
below U64MOD, the 128-bit checked intermediates below U128MOD.  Solana
public keys (Pubkey) are modelled as byte lists; PDA derivation
(Pubkey.find_program_address) is SHA-256 based and therefore enters the
model as environment fields holding the derived addresses, exactly as the
handlers consume them.  Fallible handlers return Except: an error return
models the abort of the whole instruction, under which the host discards
every write (spec section 5), so the registry is unchanged exactly when the
model returns an error before producing a new pool value.
-/

deriving instance DecidableEq for Except

namespace ObeLST

def U64MOD : Nat := 2 ^ 64
def U128MOD : Nat := 2 ^ 128

/-- The u64 maximum, used by the stake program as the never-deactivated
sentinel for deactivation_epoch. -/
def U64MAX : Nat := 2 ^ 64 - 1

/-- Solana public key, modelled as its 32 raw bytes. -/
abbrev Pubkey := List Nat

/-- The default (all-zero) pubkey, Pubkey::default() in the source. -/
def pubkeyDefault : Pubkey := List.replicate 32 0

/-- Error outcomes of the handlers.  The source splits these between
solana ProgramError variants and the StakePoolError enum of error.rs
(converted to ProgramError::Custom); the distinction does not matter to
any claim, so one inductive carries both. -/
inductive Err where
  | InvalidInstructionData
  | MissingRequiredSignature
  | InvalidFeePercentage
  | InvalidPoolName
  | InvalidSeeds
  | AccountDataTooSmall
  | IllegalOwner
  | UninitializedAccount
  | PoolPaused
  | StakeTooSmall
  | StakeTooLarge
  | InvalidStakeAccountDelegation
  | MathOverflow
  | CalculationFailure
  | InvalidStakeAuthority
  | InvalidWithdrawAuthority
  | InvalidStakeAccountAuthority
  | StakeNotDeactivated
  | CooldownNotPassed
  | WrongStakeState
  deriving DecidableEq, Repr

/-- The pool registry record, field for field the StakePool struct of
src/state.rs.  The name field is a String in Rust; borsh serializes it as
its UTF-8 bytes, so it is modelled directly as the byte list. -/
structure StakePool where
  version : Nat
  authority : Pubkey
  stake_authority : Pubkey
  withdraw_authority : Pubkey
  name : List Nat
  fee_percentage : Nat
  total_staked : Nat
  total_shares : Nat
  mint : Pubkey
  reserve : Pubkey
  helius_validator_vote : Pubkey
  manager_fee_account : Pubkey
  treasury_fee_account : Pubkey
  paused : Bool
  last_update_epoch : Nat
  min_stake : Nat
  max_stake : Nat
  stake_authority_bump_seed : Nat
  withdraw_authority_bump_seed : Nat
  reserved : List Nat
  deriving DecidableEq, Repr

/-- Representation invariant: every field fits its Rust type (u8 bytes,
u64 words, 32-byte pubkeys, the 62-byte reserved array), and the name
length fits the u32 borsh length prefix. -/
def StakePool.WF (p : StakePool) : Prop :=
  p.version < 256 ∧ p.fee_percentage < 256 ∧
  p.stake_authority_bump_seed < 256 ∧ p.withdraw_authority_bump_seed < 256 ∧
  p.total_staked < U64MOD ∧ p.total_shares < U64MOD ∧
  p.last_update_epoch < U64MOD ∧ p.min_stake < U64MOD ∧ p.max_stake < U64MOD ∧
  p.authority.length = 32 ∧ p.stake_authority.length = 32 ∧
  p.withdraw_authority.length = 32 ∧ p.mint.length = 32 ∧
  p.reserve.length = 32 ∧ p.helius_validator_vote.length = 32 ∧
  p.manager_fee_account.length = 32 ∧ p.treasury_fee_account.length = 32 ∧
  p.reserved.length = 62 ∧ p.name.length < 2 ^ 32

instance (p : StakePool) : Decidable p.WF := by
  unfold StakePool.WF; infer_instance

/-- IsInitialized for StakePool (state.rs): version > 0. -/
def StakePool.isInit (p : StakePool) : Bool := decide (p.version > 0)

/-! ## Checked arithmetic (the Rust checked_* intrinsics on u64 / u128) -/

/-- u64::checked_add. -/
def checkedAddU64 (a b : Nat) : Option Nat :=
  if a + b < U64MOD then some (a + b) else none

/-- u64::checked_sub. -/
def checkedSubU64 (a b : Nat) : Option Nat :=
  if b ≤ a then some (a - b) else none

/-- u128::checked_mul. -/
def checkedMulU128 (a b : Nat) : Option Nat :=
  if a * b < U128MOD then some (a * b) else none

/-- u128::checked_div (none exactly on division by zero). -/
def checkedDivU128 (a b : Nat) : Option Nat :=
  if b = 0 then none else some (a / b)

/-- u128 -> u64 try_into: succeeds iff the value fits in 64 bits. -/
def u128toU64 (a : Nat) : Option Nat :=
  if a < U64MOD then some a else none

/-! ## Share accounting (processor.rs lines 352-370 and 607-621) -/

/-- The pool-token amount computed by process_stake (processor.rs 355-365):
amount when the pool is empty, otherwise
floor(amount * total_shares / total_staked) through checked u128
arithmetic with a checked narrowing back to u64. -/
def poolTokensToMint (amount total_shares total_staked : Nat) : Except Err Nat :=
  if total_shares = 0 ∨ total_staked = 0 then
    Except.ok amount
  else
    match checkedMulU128 amount total_shares with
    | none => Except.error Err.MathOverflow
    | some prod =>
      match checkedDivU128 prod total_staked with
      | none => Except.error Err.MathOverflow
      | some q =>
        match u128toU64 q with
        | none => Except.error Err.MathOverflow
        | some t => Except.ok t

/-- The deferred SOL amount computed by process_unstake (processor.rs
610-621): floor(pool_token_amount * total_staked / total_shares) through
checked u128 arithmetic when both totals are positive, else 0. -/
def solToWithdraw (pool_token_amount total_staked total_shares : Nat) : Except Err Nat :=
  if total_shares > 0 ∧ total_staked > 0 then
    match checkedMulU128 pool_token_amount total_staked with
    | none => Except.error Err.MathOverflow
    | some prod =>
      match checkedDivU128 prod total_shares with
      | none => Except.error Err.MathOverflow
      | some q =>
        match u128toU64 q with
        | none => Except.error Err.MathOverflow
        | some s => Except.ok s
  else
    Except.ok 0

/-! ## Stake handler (processor.rs process_stake, lines 264-551) -/

/-- The Authorized struct handed to the stake-program initialize CPI when a
new stake record is created (processor.rs 448-462). -/
structure StakeAuthorized where
  staker : Pubkey
  withdrawer : Pubkey
  deriving DecidableEq, Repr

/-- Call environment of process_stake: signer flag, account owners, the
caller-supplied addresses, and the PDA addresses the handler re-derives
with Pubkey.find_program_address (SHA-256 based, hence environment data
rather than computed terms). -/
structure StakeEnv where
  programId : Pubkey
  splTokenId : Pubkey
  stakeProgramId : Pubkey
  userIsSigner : Bool
  userKey : Pubkey
  stakePoolOwner : Pubkey
  poolMintOwner : Pubkey
  userTokenOwner : Pubkey
  suppliedMint : Pubkey
  suppliedValidatorVote : Pubkey
  suppliedStakeAuthority : Pubkey
  suppliedStakeAccount : Pubkey
  derivedStakeAuthority : Pubkey
  derivedStakeAccount : Pubkey
  stakeAccountLamports : Nat
  stakeAccountOwner : Pubkey
  deriving DecidableEq, Repr

/-- Result of a successful Stake: the updated registry, the token amount
minted, the mint account the mint_to CPI targeted, and the Authorized
fields of the stake record when this call created it. -/
structure StakeResult where
  pool : StakePool
  minted : Nat
  mintUsed : Pubkey
  createdRecord : Option StakeAuthorized
  deriving DecidableEq, Repr

/-- process_stake (processor.rs 264-551), check for check in source order:
signer (306), ownership of pool / mint / user token account (313-321),
initialized (329), paused (333), bounds (338-345), pinned validator
(347-350), token computation (355-370), stake-authority re-derivation
against both the stored and the supplied address (376-384), stake-record
PDA re-derivation (391-406), create-or-load of the stake record with the
Authorized fields of 448-462, and the checked registry update (537-547).
The transfer / delegate / mint_to CPIs move external balances only and are
reflected in the result fields. -/
def process_stake (env : StakeEnv) (pool : StakePool) (amount : Nat) :
    Except Err StakeResult :=
  if ¬ env.userIsSigner then Except.error Err.MissingRequiredSignature
  else if env.stakePoolOwner ≠ env.programId then Except.error Err.IllegalOwner
  else if env.poolMintOwner ≠ env.splTokenId then Except.error Err.IllegalOwner
  else if env.userTokenOwner ≠ env.splTokenId then Except.error Err.IllegalOwner
  else if ¬ pool.isInit then Except.error Err.UninitializedAccount
  else if pool.paused then Except.error Err.PoolPaused
  else if amount < pool.min_stake then Except.error Err.StakeTooSmall
  else if amount > pool.max_stake then Except.error Err.StakeTooLarge
  else if env.suppliedValidatorVote ≠ pool.helius_validator_vote then
    Except.error Err.InvalidStakeAccountDelegation
  else
    match poolTokensToMint amount pool.total_shares pool.total_staked with
    | Except.error e => Except.error e
    | Except.ok tokens =>
      if tokens = 0 then Except.error Err.CalculationFailure
      else if env.derivedStakeAuthority ≠ pool.stake_authority ∨
              env.derivedStakeAuthority ≠ env.suppliedStakeAuthority then
        Except.error Err.InvalidStakeAuthority
      else if env.derivedStakeAccount ≠ env.suppliedStakeAccount then
        Except.error Err.InvalidSeeds
      -- create-or-load branch (processor.rs 421-477): a zero-lamport PDA is
      -- created and initialized with Authorized { staker = pool stake
      -- authority, withdrawer = user } (448-462); an existing PDA must be
      -- owned by the stake program (472)
      else if env.stakeAccountLamports ≠ 0 ∧ env.stakeAccountOwner ≠ env.stakeProgramId then
        Except.error Err.IllegalOwner
      else
        match checkedAddU64 pool.total_staked amount with
        | none => Except.error Err.MathOverflow
        | some newStaked =>
          match checkedAddU64 pool.total_shares tokens with
          | none => Except.error Err.MathOverflow
          | some newShares =>
            Except.ok
              { pool := { pool with total_staked := newStaked, total_shares := newShares }
                minted := tokens
                mintUsed := env.suppliedMint
                createdRecord :=
                  if env.stakeAccountLamports = 0 then
                    some { staker := pool.stake_authority, withdrawer := env.userKey }
                  else none }

/-! ## Unstake handler (processor.rs process_unstake, lines 553-708) -/

/-- Call environment of process_unstake, in the same style as StakeEnv. -/
structure UnstakeEnv where
  programId : Pubkey
  splTokenId : Pubkey
  userIsSigner : Bool
  userKey : Pubkey
  stakePoolOwner : Pubkey
  poolMintOwner : Pubkey
  userTokenOwner : Pubkey
  suppliedMint : Pubkey
  suppliedStakeAccount : Pubkey
  derivedStakeAuthority : Pubkey
  derivedStakeAccount : Pubkey
  deriving DecidableEq, Repr

/-- Result of a successful Unstake: the updated registry, the tokens
burned and the deferred SOL amount the ratio assigns to them. -/
structure UnstakeResult where
  pool : StakePool
  burned : Nat
  solOwed : Nat
  deriving DecidableEq, Repr

/-- process_unstake (processor.rs 553-708), in source order: signer (582),
ownership of pool / mint / user token account (586-588), initialized
(593), paused (597), zero amount (603), deferred SOL computation
(610-621), burn CPI, stake-authority re-derivation against the stored
address (652-658), stake-record PDA re-derivation (661-673), deactivate
CPI, checked registry update (693-698). -/
def process_unstake (env : UnstakeEnv) (pool : StakePool) (pool_token_amount : Nat) :
    Except Err UnstakeResult :=
  if ¬ env.userIsSigner then Except.error Err.MissingRequiredSignature
  else if env.stakePoolOwner ≠ env.programId then Except.error Err.IllegalOwner
  else if env.poolMintOwner ≠ env.splTokenId then Except.error Err.IllegalOwner
  else if env.userTokenOwner ≠ env.splTokenId then Except.error Err.IllegalOwner
  else if ¬ pool.isInit then Except.error Err.UninitializedAccount
  else if pool.paused then Except.error Err.PoolPaused
  else if pool_token_amount = 0 then Except.error Err.StakeTooSmall
  else
    match solToWithdraw pool_token_amount pool.total_staked pool.total_shares with
    | Except.error e => Except.error e
    | Except.ok sol =>
      if env.derivedStakeAuthority ≠ pool.stake_authority then
        Except.error Err.InvalidStakeAuthority
      else if env.derivedStakeAccount ≠ env.suppliedStakeAccount then
        Except.error Err.InvalidSeeds
      else
        match checkedSubU64 pool.total_staked sol with
        | none => Except.error Err.MathOverflow
        | some newStaked =>
          match checkedSubU64 pool.total_shares pool_token_amount with
          | none => Except.error Err.MathOverflow
          | some newShares =>
            Except.ok
              { pool := { pool with total_staked := newStaked, total_shares := newShares }
                burned := pool_token_amount
                solOwed := sol }

/-! ## Epoch marker handler (processor.rs process_claim_rewards, 714-772) -/

/-- Call environment of process_claim_rewards: signer flag, pool account
owner and the epoch read from the clock sysvar. -/
structure ClaimEnv where
  programId : Pubkey
  userIsSigner : Bool
  stakePoolOwner : Pubkey
  currentEpoch : Nat
  deriving DecidableEq, Repr

/-- process_claim_rewards (processor.rs 714-772): signer (731), ownership
(736), initialized (740); the paused check is commented out in the source
(744-747) and therefore absent; no-op success when last_update_epoch is
already at or past the current epoch (754-757), otherwise only
last_update_epoch is set to the current epoch (765). -/
def process_claim_rewards (env : ClaimEnv) (pool : StakePool) :
    Except Err StakePool :=
  if ¬ env.userIsSigner then Except.error Err.MissingRequiredSignature
  else if env.stakePoolOwner ≠ env.programId then Except.error Err.IllegalOwner
  else if ¬ pool.isInit then Except.error Err.UninitializedAccount
  else if pool.last_update_epoch ≥ env.currentEpoch then Except.ok pool
  else Except.ok { pool with last_update_epoch := env.currentEpoch }

/-! ## Withdraw handler (processor.rs process_withdraw_stake, 774-892) -/

/-- The slice of solana StakeStateV2 the handler inspects: the variant,
the authorized withdrawer of the meta, and the deactivation epoch of the
delegation.  Processor.rs 822-840 matches only the Stake variant and
treats every other variant as WrongStakeState. -/
inductive StakeStateV2 where
  | Uninitialized
  | Initialized (staker : Pubkey) (withdrawer : Pubkey)
  | Stake (staker : Pubkey) (withdrawer : Pubkey) (deactivationEpoch : Nat)
  | RewardsPool
  deriving DecidableEq, Repr

/-- Call environment of process_withdraw_stake. -/
structure WithdrawEnv where
  programId : Pubkey
  stakeProgramId : Pubkey
  userIsSigner : Bool
  userKey : Pubkey
  stakePoolOwner : Pubkey
  stakeAccountOwner : Pubkey
  suppliedWithdrawAuthority : Pubkey
  derivedWithdrawAuthority : Pubkey
  stakeState : StakeStateV2
  stakeAccountLamports : Nat
  currentEpoch : Nat
  deriving DecidableEq, Repr

/-- Result of a successful WithdrawStake: the registry at settlement
(never written by this handler) and the full stake-record balance moved
to the user. -/
structure WithdrawResult where
  pool : StakePool
  withdrawn : Nat
  deriving DecidableEq, Repr

/-- process_withdraw_stake (processor.rs 774-892), in source order: signer
(799), ownership of pool and stake record (803-804), initialized (808),
supplied withdraw authority against the stored one (815-818), the
StakeStateV2 match with the withdrawer check, the never-deactivated
sentinel check and WrongStakeState fallback (821-840), the cooldown check
(843-847), the re-derivation double check of the withdraw authority
(850-859), and the full-balance withdraw CPI (867-884).  The registry is
returned unchanged: the handler never serializes the pool. -/
def process_withdraw_stake (env : WithdrawEnv) (pool : StakePool) :
    Except Err WithdrawResult :=
  if ¬ env.userIsSigner then Except.error Err.MissingRequiredSignature
  else if env.stakePoolOwner ≠ env.programId then Except.error Err.IllegalOwner
  else if env.stakeAccountOwner ≠ env.stakeProgramId then Except.error Err.IllegalOwner
  else if ¬ pool.isInit then Except.error Err.UninitializedAccount
  else if env.suppliedWithdrawAuthority ≠ pool.withdraw_authority then
    Except.error Err.InvalidWithdrawAuthority
  else
    match env.stakeState with
    | StakeStateV2.Stake _ withdrawer deactivationEpoch =>
      if withdrawer ≠ pool.withdraw_authority then
        Except.error Err.InvalidStakeAccountAuthority
      else if deactivationEpoch = U64MAX then
        Except.error Err.StakeNotDeactivated
      else if env.currentEpoch ≤ deactivationEpoch then
        Except.error Err.CooldownNotPassed
      else if env.derivedWithdrawAuthority ≠ pool.withdraw_authority then
        Except.error Err.InvalidWithdrawAuthority
      else
        Except.ok { pool := pool, withdrawn := env.stakeAccountLamports }
    | _ => Except.error Err.WrongStakeState

/-! ## Borsh serialization of the registry record (state.rs layout)

borsh writes the fields in declaration order: u8 as one raw byte, Pubkey
as 32 raw bytes, String as a u32 little-endian byte-length prefix followed
by the UTF-8 bytes, u64 as 8 little-endian bytes, bool as one byte 0 or 1
and the fixed [u8; 62] array as 62 raw bytes with no length prefix. -/

/-- Little-endian byte encoding of n on k bytes. -/
def leBytes : Nat → Nat → List Nat
  | 0, _ => []
  | k + 1, n => n % 256 :: leBytes k (n / 256)

/-- Little-endian byte decoding. -/
def decLE (bs : List Nat) : Nat := bs.foldr (fun b acc => b + 256 * acc) 0

/-- The serialized fields preceding the mint: version, the three
authorities, length-prefixed name, fee, total_staked, total_shares. -/
def serHead (p : StakePool) : List Nat :=
  p.version :: (p.authority ++ p.stake_authority ++ p.withdraw_authority ++
    leBytes 4 p.name.length ++ p.name ++ p.fee_percentage ::
    (leBytes 8 p.total_staked ++ leBytes 8 p.total_shares))

/-- The serialized fields following the mint: reserve, pinned validator,
the two fee accounts, paused, last_update_epoch, the stake bounds, the two
bump seeds and the reserved padding. -/
def serTail (p : StakePool) : List Nat :=
  p.reserve ++ p.helius_validator_vote ++ p.manager_fee_account ++
    p.treasury_fee_account ++ (if p.paused then 1 else 0) ::
    (leBytes 8 p.last_update_epoch ++ leBytes 8 p.min_stake ++
      leBytes 8 p.max_stake ++ p.stake_authority_bump_seed ::
      p.withdraw_authority_bump_seed :: p.reserved)

/-- Full borsh serialization of StakePool, in field order. -/
def serializeStakePool (p : StakePool) : List Nat :=
  serHead p ++ p.mint ++ serTail p

/-- The byte offset of the mint field computed by process_initialize
(processor.rs 217-218): version(1) + 3 pubkeys(96) + name length
prefix(4) + name bytes + fee(1) + total_staked(8) + total_shares(8). -/
def mintOffset (nameLen : Nat) : Nat := 1 + 3 * 32 + 4 + nameLen + 1 + 2 * 8

/-- In-place overwrite of bytes at a given offset, the
copy_from_slice of processor.rs 227. -/
def writeBytesAt (data : List Nat) (off : Nat) (bytes : List Nat) : List Nat :=
  data.take off ++ bytes ++ data.drop (off + bytes.length)

/-! ### Borsh deserialization (BorshDeserialize::try_from_slice) -/

/-- Read one raw byte. -/
def readByte : List Nat → Option (Nat × List Nat)
  | [] => none
  | b :: r => some (b, r)

/-- Read n raw bytes. -/
def readBytes (n : Nat) (l : List Nat) : Option (List Nat × List Nat) :=
  if n ≤ l.length then some (l.take n, l.drop n) else none

/-- Read a little-endian u32. -/
def readU32 (l : List Nat) : Option (Nat × List Nat) :=
  (readBytes 4 l).map (fun p => (decLE p.1, p.2))

/-- Read a little-endian u64. -/
def readU64 (l : List Nat) : Option (Nat × List Nat) :=
  (readBytes 8 l).map (fun p => (decLE p.1, p.2))

/-- Read a borsh bool: byte 1 is true, byte 0 is false, anything else is
a deserialization failure. -/
def readBool : List Nat → Option (Bool × List Nat)
  | [] => none
  | b :: r => if b = 1 then some (true, r) else if b = 0 then some (false, r) else none

/-- Read a pubkey: 32 raw bytes. -/
def readPubkey (l : List Nat) : Option (Pubkey × List Nat) := readBytes 32 l

/-- The fields of the record that precede the mint, as read back from the
bytes, with the unconsumed rest. -/
structure HeadParse where
  version : Nat
  authority : Pubkey
  stakeAuth : Pubkey
  withdrawAuth : Pubkey
  name : List Nat
  fee : Nat
  totalStaked : Nat
  totalShares : Nat
  rest : List Nat

/-- Read the fields preceding the mint. -/
def readHead (l : List Nat) : Option HeadParse :=
  (readByte l).bind fun a =>
  (readPubkey a.2).bind fun b =>
  (readPubkey b.2).bind fun c =>
  (readPubkey c.2).bind fun d =>
  (readU32 d.2).bind fun e =>
  (readBytes e.1 e.2).bind fun f =>
  (readByte f.2).bind fun g =>
  (readU64 g.2).bind fun h =>
  (readU64 h.2).bind fun i =>
  some ⟨a.1, b.1, c.1, d.1, f.1, g.1, h.1, i.1, i.2⟩

/-- The fields of the record that follow the mint, as read back from the
bytes, with the unconsumed rest. -/
structure TailParse where
  reserve : Pubkey
  helius : Pubkey
  managerFee : Pubkey
  treasuryFee : Pubkey
  paused : Bool
  lastEpoch : Nat
  minStake : Nat
  maxStake : Nat
  saBump : Nat
  waBump : Nat
  reservedBytes : List Nat
  rest : List Nat

/-- Read the fields following the mint. -/
def readTail (l : List Nat) : Option TailParse :=
  (readPubkey l).bind fun a =>
  (readPubkey a.2).bind fun b =>
  (readPubkey b.2).bind fun c =>
  (readPubkey c.2).bind fun d =>
  (readBool d.2).bind fun e =>
  (readU64 e.2).bind fun f =>
  (readU64 f.2).bind fun g =>
  (readU64 g.2).bind fun h =>
  (readByte h.2).bind fun i =>
  (readByte i.2).bind fun j =>
  (readBytes 62 j.2).bind fun k =>
  some ⟨a.1, b.1, c.1, d.1, e.1, f.1, g.1, h.1, i.1, j.1, k.1, k.2⟩

/-- Borsh deserialization of StakePool; try_from_slice also demands that
the input is fully consumed. -/
def deserializeStakePool (l : List Nat) : Option StakePool :=
  (readHead l).bind fun hd =>
  (readPubkey hd.rest).bind fun m =>
  (readTail m.2).bind fun tl =>
  if tl.rest = [] then
    some
      { version := hd.version, authority := hd.authority
        stake_authority := hd.stakeAuth, withdraw_authority := hd.withdrawAuth
        name := hd.name, fee_percentage := hd.fee
        total_staked := hd.totalStaked, total_shares := hd.totalShares
        mint := m.1, reserve := tl.reserve, helius_validator_vote := tl.helius
        manager_fee_account := tl.managerFee, treasury_fee_account := tl.treasuryFee
        paused := tl.paused, last_update_epoch := tl.lastEpoch
        min_stake := tl.minStake, max_stake := tl.maxStake
        stake_authority_bump_seed := tl.saBump
        withdraw_authority_bump_seed := tl.waBump, reserved := tl.reservedBytes }
  else none

/-! ## Initialize handler (processor.rs process_initialize, lines 65-262) -/

/-- Call environment of process_initialize: signer flag, the supplied and
the derived pool and mint PDAs, the derived authorities and their bumps,
the two fee recipients and the epoch read from the clock. -/
structure InitEnv where
  authorityIsSigner : Bool
  authorityKey : Pubkey
  suppliedPoolKey : Pubkey
  derivedPoolKey : Pubkey
  suppliedMintKey : Pubkey
  derivedMintKey : Pubkey
  derivedStakeAuthority : Pubkey
  derivedWithdrawAuthority : Pubkey
  stakeAuthorityBump : Nat
  withdrawAuthorityBump : Nat
  managerFeeKey : Pubkey
  treasuryFeeKey : Pubkey
  currentEpoch : Nat
  deriving DecidableEq, Repr

/-- The initial registry record built at processor.rs 131-152: version 1,
totals zero, placeholder all-zero mint, paused false, last_update_epoch =
current epoch, default bounds 1e9 and 1e15. -/
def initialStakePool (env : InitEnv) (name : List Nat) (fee : Nat) (vote : Pubkey) :
    StakePool :=
  { version := 1
    authority := env.authorityKey
    stake_authority := env.derivedStakeAuthority
    withdraw_authority := env.derivedWithdrawAuthority
    name := name
    fee_percentage := fee
    total_staked := 0
    total_shares := 0
    mint := pubkeyDefault
    reserve := pubkeyDefault
    helius_validator_vote := vote
    manager_fee_account := env.managerFeeKey
    treasury_fee_account := env.treasuryFeeKey
    paused := false
    last_update_epoch := env.currentEpoch
    min_stake := 1000000000
    max_stake := 1000000 * 1000000000
    stake_authority_bump_seed := env.stakeAuthorityBump
    withdraw_authority_bump_seed := env.withdrawAuthorityBump
    reserved := List.replicate 62 0 }

/-- process_initialize (processor.rs 65-262), returning the bytes of the
persisted pool account: signer (90), fee bound (95), name length (99),
pool PDA re-derivation (106-113), the initial record serialized and
written whole (131-184), mint PDA re-derivation (187-194), and the
two-phase in-place mint patch at its exact byte offset (213-234).  The
mint-creation and initialize_mint CPIs touch only external accounts. -/
def process_init (env : InitEnv) (name : List Nat) (fee : Nat) (vote : Pubkey) :
    Except Err (List Nat) :=
  if ¬ env.authorityIsSigner then Except.error Err.MissingRequiredSignature
  else if fee > 100 then Except.error Err.InvalidFeePercentage
  else if name.length < 3 ∨ name.length > 32 then Except.error Err.InvalidPoolName
  else if env.derivedPoolKey ≠ env.suppliedPoolKey then Except.error Err.InvalidSeeds
  else
    let data := serializeStakePool (initialStakePool env name fee vote)
    if env.derivedMintKey ≠ env.suppliedMintKey then Except.error Err.InvalidSeeds
    else if mintOffset name.length + 32 ≤ data.length then
      Except.ok (writeBytesAt data (mintOffset name.length) env.suppliedMintKey)
    else Except.error Err.AccountDataTooSmall

/-! ## Serialization lemmas -/

theorem leBytes_length (k n : Nat) : (leBytes k n).length = k := by
  induction k generalizing n with
  | zero => rfl
  | succ k ih => simp [leBytes, ih]

theorem decLE_leBytes (k n : Nat) (h : n < 256 ^ k) : decLE (leBytes k n) = n := by
  induction k generalizing n with
  | zero =>
    simp only [Nat.pow_zero, Nat.lt_one_iff] at h
    simp [leBytes, decLE, h]
  | succ k ih =>
    have hdiv : n / 256 < 256 ^ k := by
      rw [Nat.div_lt_iff_lt_mul (by norm_num)]
      calc n < 256 ^ (k + 1) := h
        _ = 256 ^ k * 256 := by ring
    simp only [leBytes, decLE, List.foldr_cons]
    have := ih (n / 256) hdiv
    simp only [decLE] at this
    rw [this]
    omega

theorem readBytes_exact (n : Nat) (xs r : List Nat) (h : xs.length = n) :
    readBytes n (xs ++ r) = some (xs, r) := by
  unfold readBytes
  rw [if_pos, List.take_left' h, List.drop_left' h]
  simp [List.length_append, ← h]

theorem readPubkey_exact (xs r : List Nat) (h : xs.length = 32) :
    readPubkey (xs ++ r) = some (xs, r) :=
  readBytes_exact 32 xs r h

theorem readU32_le (n : Nat) (r : List Nat) (h : n < 2 ^ 32) :
    readU32 (leBytes 4 n ++ r) = some (n, r) := by
  unfold readU32
  rw [readBytes_exact 4 _ _ (leBytes_length 4 n)]
  have : n < 256 ^ 4 := by norm_num at h ⊢; omega
  simp [decLE_leBytes 4 n this]

theorem readU64_le (n : Nat) (r : List Nat) (h : n < 2 ^ 64) :
    readU64 (leBytes 8 n ++ r) = some (n, r) := by
  unfold readU64
  rw [readBytes_exact 8 _ _ (leBytes_length 8 n)]
  have : n < 256 ^ 8 := by norm_num at h ⊢; omega
  simp [decLE_leBytes 8 n this]

theorem readBool_encode (b : Bool) (r : List Nat) :
    readBool ((if b then 1 else 0) :: r) = some (b, r) := by
  cases b <;> simp [readBool]

theorem readHead_ser (p : StakePool) (r : List Nat) (h : p.WF) :
    readHead (serHead p ++ r) =
      some ⟨p.version, p.authority, p.stake_authority, p.withdraw_authority,
            p.name, p.fee_percentage, p.total_staked, p.total_shares, r⟩ := by
  obtain ⟨-, -, -, -, h5, h6, -, -, -, h10, h11, h12, -, -, -, -, -, -, h19⟩ := h
  simp only [serHead, List.cons_append, List.append_assoc]
  rw [readHead, readByte]
  simp only [Option.some_bind]
  rw [readPubkey_exact _ _ h10]
  simp only [Option.some_bind]
  rw [readPubkey_exact _ _ h11]
  simp only [Option.some_bind]
  rw [readPubkey_exact _ _ h12]
  simp only [Option.some_bind]
  rw [readU32_le _ _ h19]
  simp only [Option.some_bind]
  rw [readBytes_exact p.name.length _ _ rfl]
  simp only [Option.some_bind, List.cons_append]
  rw [readByte]
  simp only [Option.some_bind]
  rw [readU64_le _ _ h5]
  simp only [Option.some_bind]
  rw [readU64_le _ _ h6]
  simp only [Option.some_bind]

theorem readTail_ser (p : StakePool) (r : List Nat) (h : p.WF) :
    readTail (serTail p ++ r) =
      some ⟨p.reserve, p.helius_validator_vote, p.manager_fee_account,
            p.treasury_fee_account, p.paused, p.last_update_epoch, p.min_stake,
            p.max_stake, p.stake_authority_bump_seed,
            p.withdraw_authority_bump_seed, p.reserved, r⟩ := by
  obtain ⟨-, -, -, -, -, -, h7, h8, h9, -, -, -, -, h14, h15, h16, h17, h18, -⟩ := h
  simp only [serTail, List.cons_append, List.append_assoc]
  rw [readTail]
  rw [readPubkey_exact _ _ h14]
  simp only [Option.some_bind]
  rw [readPubkey_exact _ _ h15]
  simp only [Option.some_bind]
  rw [readPubkey_exact _ _ h16]
  simp only [Option.some_bind]
  rw [readPubkey_exact _ _ h17]
  simp only [Option.some_bind]
  rw [readBool_encode]
  simp only [Option.some_bind]
  rw [readU64_le _ _ h7]
  simp only [Option.some_bind]
  rw [readU64_le _ _ h8]
  simp only [Option.some_bind]
  rw [readU64_le _ _ h9]
  simp only [Option.some_bind]
  rw [readByte]
  simp only [Option.some_bind]
  rw [readByte]
  simp only [Option.some_bind]
  rw [readBytes_exact 62 _ _ h18]
  simp only [Option.some_bind]

/-- Borsh round trip: deserializing the serialization of a well-formed
pool record returns exactly that record. -/
theorem deserialize_serialize (p : StakePool) (h : p.WF) :
    deserializeStakePool (serializeStakePool p) = some p := by
  have hm : p.mint.length = 32 := h.2.2.2.2.2.2.2.2.2.2.2.2.1
  rw [deserializeStakePool, serializeStakePool, List.append_assoc,
    readHead_ser p (p.mint ++ serTail p) h]
  simp only [Option.some_bind]
  rw [show p.mint ++ serTail p = p.mint ++ (serTail p ++ []) by simp,
    readPubkey_exact _ _ hm]
  simp only [Option.some_bind]
  rw [readTail_ser p [] h]
  simp only [Option.some_bind, if_true]

/-- Splicing a same-length byte string at the offset of the middle
component of a three-component concatenation replaces exactly that
component. -/
theorem writeBytesAt_append (A mid B bytes : List Nat) (h : mid.length = bytes.length) :
    writeBytesAt (A ++ (mid ++ B)) A.length bytes = A ++ (bytes ++ B) := by
  unfold writeBytesAt
  have h1 : (A ++ (mid ++ B)).take A.length = A := List.take_left' rfl
  have h2 : (A ++ (mid ++ B)).drop (A.length + bytes.length) = B := by
    rw [show A ++ (mid ++ B) = (A ++ mid) ++ B by simp [List.append_assoc]]
    exact List.drop_left' (by simp [List.length_append, h])
  rw [h1, h2, List.append_assoc]

/-- The serialized fields that precede the mint occupy exactly the byte
offset process_initialize computes for the mint. -/
theorem serHead_length (p : StakePool) (h : p.WF) :
    (serHead p).length = mintOffset p.name.length := by
  obtain ⟨-, -, -, -, -, -, -, -, -, h10, h11, h12, -, -, -, -, -, -, -⟩ := h
  simp [serHead, mintOffset, leBytes_length, h10, h11, h12]
  omega

/-- Patching the serialized record at the mint offset with a 32-byte
address yields precisely the serialization of the record whose mint field
is that address, every other field unchanged. -/
theorem patch_mint (p : StakePool) (hWF : p.WF) (m : Pubkey) (hm : m.length = 32) :
    writeBytesAt (serializeStakePool p) (mintOffset p.name.length) m
      = serializeStakePool { p with mint := m } := by
  have hmint : p.mint.length = 32 := hWF.2.2.2.2.2.2.2.2.2.2.2.2.1
  rw [serializeStakePool, List.append_assoc, ← serHead_length p hWF,
    writeBytesAt_append (serHead p) p.mint (serTail p) m (by rw [hmint, hm])]
  rw [serializeStakePool, List.append_assoc]
  rfl

/-! ## Helper lemmas and sample inputs for the claim theorems -/

/-- Whether a StakeStateV2 value is the delegated Stake variant. -/
def StakeStateV2.isStake : StakeStateV2 → Bool
  | StakeStateV2.Stake _ _ _ => true
  | _ => false

/-- A well-formed-enough concrete pool used to instantiate witnesses. -/
def samplePool : StakePool :=
  { version := 1, authority := [1], stake_authority := [2], withdraw_authority := [3]
    name := [65, 66, 67], fee_percentage := 5, total_staked := 0, total_shares := 0
    mint := [4], reserve := [5], helius_validator_vote := [6], manager_fee_account := [7]
    treasury_fee_account := [8], paused := false, last_update_epoch := 0
    min_stake := 1, max_stake := 1000000000000000, stake_authority_bump_seed := 255
    withdraw_authority_bump_seed := 254, reserved := List.replicate 62 0 }

/-! ## Claim C8: epoch-marker update and its idempotence -/

/-- Claim C8: for every initialized pool and signed epoch-marker update
(ClaimRewards) call, if last_update_epoch is at or past the current epoch
the call succeeds leaving the registry unchanged; otherwise it sets
last_update_epoch to the current epoch and changes nothing else; hence a
second call within the same epoch leaves the registry unchanged. -/
theorem claim_C8_epoch_marker (env : ClaimEnv) (pool : StakePool)
    (hsig : env.userIsSigner = true)
    (hop : env.stakePoolOwner = env.programId)
    (hinit : 0 < pool.version) :
    (env.currentEpoch ≤ pool.last_update_epoch →
      process_claim_rewards env pool = Except.ok pool) ∧
    (pool.last_update_epoch < env.currentEpoch →
      process_claim_rewards env pool =
        Except.ok { pool with last_update_epoch := env.currentEpoch }) ∧
    process_claim_rewards env { pool with last_update_epoch := env.currentEpoch } =
      Except.ok { pool with last_update_epoch := env.currentEpoch } := by
  have hi : pool.isInit = true := by simp [StakePool.isInit]; omega
  refine ⟨fun h => ?_, fun h => ?_, ?_⟩
  · simp [process_claim_rewards, hsig, hop, hi, h]
  · simp [process_claim_rewards, hsig, hop, hi, Nat.not_le.mpr h]
  · simp [process_claim_rewards, hsig, hop, StakePool.isInit]
    omega

/-- Claim C8 witness at a concrete pool and epoch. -/
theorem claim_C8_epoch_marker_witness :
    ((7 : Nat) ≤ ({ samplePool with last_update_epoch := 9 } : StakePool).last_update_epoch →
      process_claim_rewards
        { programId := [10], userIsSigner := true, stakePoolOwner := [10], currentEpoch := 7 }
        { samplePool with last_update_epoch := 9 } =
        Except.ok { samplePool with last_update_epoch := 9 }) ∧
    (({ samplePool with last_update_epoch := 9 } : StakePool).last_update_epoch < 7 →
      process_claim_rewards
        { programId := [10], userIsSigner := true, stakePoolOwner := [10], currentEpoch := 7 }
        { samplePool with last_update_epoch := 9 } =
        Except.ok { { samplePool with last_update_epoch := 9 } with last_update_epoch := 7 }) ∧
    process_claim_rewards
        { programId := [10], userIsSigner := true, stakePoolOwner := [10], currentEpoch := 7 }
        { { samplePool with last_update_epoch := 9 } with last_update_epoch := 7 } =
      Except.ok { { samplePool with last_update_epoch := 9 } with last_update_epoch := 7 } :=
  claim_C8_epoch_marker
    { programId := [10], userIsSigner := true, stakePoolOwner := [10], currentEpoch := 7 }
    { samplePool with last_update_epoch := 9 }
    (by decide) (by decide) (by decide)

/-! ## Claim C10: pausing never blocks the epoch-marker update -/

/-- Claim C10: for every initialized pool whose paused flag is set, a
signed epoch-marker update does not fail with the pool-paused error (the
paused check is commented out in the handler), while Stake and Unstake on
the same paused pool do fail with exactly that error. -/
theorem claim_C10_pause_scope (env : ClaimEnv) (pool : StakePool)
    (hsig : env.userIsSigner = true)
    (hop : env.stakePoolOwner = env.programId)
    (hinit : 0 < pool.version)
    (hpaused : pool.paused = true)
    (senv : StakeEnv) (samt : Nat)
    (hssig : senv.userIsSigner = true)
    (hsop : senv.stakePoolOwner = senv.programId)
    (hsom : senv.poolMintOwner = senv.splTokenId)
    (hsou : senv.userTokenOwner = senv.splTokenId)
    (uenv : UnstakeEnv) (uamt : Nat)
    (husig : uenv.userIsSigner = true)
    (huop : uenv.stakePoolOwner = uenv.programId)
    (huom : uenv.poolMintOwner = uenv.splTokenId)
    (huou : uenv.userTokenOwner = uenv.splTokenId) :
    process_claim_rewards env pool ≠ Except.error Err.PoolPaused ∧
    process_stake senv pool samt = Except.error Err.PoolPaused ∧
    process_unstake uenv pool uamt = Except.error Err.PoolPaused := by
  have hi : pool.isInit = true := by simp [StakePool.isInit]; omega
  refine ⟨?_, ?_, ?_⟩
  · by_cases h : pool.last_update_epoch ≥ env.currentEpoch <;>
      simp [process_claim_rewards, hsig, hop, hi, h]
  · simp [process_stake, hssig, hsop, hsom, hsou, hi, hpaused]
  · simp [process_unstake, husig, huop, huom, huou, hi, hpaused]

/-- Claim C10 witness at a concrete paused pool. -/
theorem claim_C10_pause_scope_witness :
    process_claim_rewards
        { programId := [10], userIsSigner := true, stakePoolOwner := [10], currentEpoch := 7 }
        { samplePool with paused := true } ≠ Except.error Err.PoolPaused ∧
    process_stake
        { programId := [10], splTokenId := [11], stakeProgramId := [12]
          userIsSigner := true, userKey := [13], stakePoolOwner := [10]
          poolMintOwner := [11], userTokenOwner := [11], suppliedMint := [4]
          suppliedValidatorVote := [6], suppliedStakeAuthority := [2]
          suppliedStakeAccount := [14], derivedStakeAuthority := [2]
          derivedStakeAccount := [14], stakeAccountLamports := 0
          stakeAccountOwner := [12] }
        { samplePool with paused := true } 5 = Except.error Err.PoolPaused ∧
    process_unstake
        { programId := [10], splTokenId := [11], userIsSigner := true
          userKey := [13], stakePoolOwner := [10], poolMintOwner := [11]
          userTokenOwner := [11], suppliedMint := [4], suppliedStakeAccount := [14]
          derivedStakeAuthority := [2], derivedStakeAccount := [14] }
        { samplePool with paused := true } 5 = Except.error Err.PoolPaused :=
  claim_C10_pause_scope
    { programId := [10], userIsSigner := true, stakePoolOwner := [10], currentEpoch := 7 }
    { samplePool with paused := true }
    (by decide) (by decide) (by decide) (by decide)
    { programId := [10], splTokenId := [11], stakeProgramId := [12]
      userIsSigner := true, userKey := [13], stakePoolOwner := [10]
      poolMintOwner := [11], userTokenOwner := [11], suppliedMint := [4]
      suppliedValidatorVote := [6], suppliedStakeAuthority := [2]
      suppliedStakeAccount := [14], derivedStakeAuthority := [2]
      derivedStakeAccount := [14], stakeAccountLamports := 0
      stakeAccountOwner := [12] } 5
    (by decide) (by decide) (by decide) (by decide)
    { programId := [10], splTokenId := [11], userIsSigner := true
      userKey := [13], stakePoolOwner := [10], poolMintOwner := [11]
      userTokenOwner := [11], suppliedMint := [4], suppliedStakeAccount := [14]
      derivedStakeAuthority := [2], derivedStakeAccount := [14] } 5
    (by decide) (by decide) (by decide) (by decide)

/-! ## Claim C4: withdraw gating -/

/-- Claim C4 counterexample: the claim as stated is false.  With the
supplied withdraw-authority equal to the registry one, the record in the
delegated Stake state, a deactivation epoch distinct from the sentinel and
the current epoch strictly past it, the claim predicts success; but when
the record withdrawer differs from the registry withdraw-authority the
handler fails with InvalidStakeAccountAuthority (processor.rs 825-828), a
check the claim does not mention. -/
theorem claim_C4_counterexample :
    ({ programId := [10], stakeProgramId := [12], userIsSigner := true
       userKey := [13], stakePoolOwner := [10], stakeAccountOwner := [12]
       suppliedWithdrawAuthority := [3], derivedWithdrawAuthority := [3]
       stakeState := StakeStateV2.Stake [2] [9] 5, stakeAccountLamports := 777
       currentEpoch := 10 } : WithdrawEnv).suppliedWithdrawAuthority =
        samplePool.withdraw_authority ∧
    (5 : Nat) ≠ U64MAX ∧ (5 : Nat) < 10 ∧
    process_withdraw_stake
      { programId := [10], stakeProgramId := [12], userIsSigner := true
        userKey := [13], stakePoolOwner := [10], stakeAccountOwner := [12]
        suppliedWithdrawAuthority := [3], derivedWithdrawAuthority := [3]
        stakeState := StakeStateV2.Stake [2] [9] 5, stakeAccountLamports := 777
        currentEpoch := 10 }
      samplePool = Except.error Err.InvalidStakeAccountAuthority := by
  refine ⟨by decide, by decide, by decide, by decide⟩

/-- Claim C4 as amended: same gating, with the two checks the source also
performs made explicit: the record withdrawer must equal the registry
withdraw-authority, and the derived withdraw-authority must equal the
stored one. -/
theorem claim_C4_withdraw_gating (env : WithdrawEnv) (pool : StakePool)
    (s w : Pubkey) (d : Nat)
    (hsig : env.userIsSigner = true)
    (hop : env.stakePoolOwner = env.programId)
    (hoa : env.stakeAccountOwner = env.stakeProgramId)
    (hinit : 0 < pool.version)
    (hsup : env.suppliedWithdrawAuthority = pool.withdraw_authority)
    (hder : env.derivedWithdrawAuthority = pool.withdraw_authority)
    (hst : env.stakeState = StakeStateV2.Stake s w d)
    (hw : w = pool.withdraw_authority)
    (env2 : WithdrawEnv) (pool2 : StakePool)
    (hsig2 : env2.userIsSigner = true)
    (hop2 : env2.stakePoolOwner = env2.programId)
    (hoa2 : env2.stakeAccountOwner = env2.stakeProgramId)
    (hinit2 : 0 < pool2.version)
    (hsup2 : env2.suppliedWithdrawAuthority = pool2.withdraw_authority)
    (hns : env2.stakeState.isStake = false) :
    process_withdraw_stake env2 pool2 = Except.error Err.WrongStakeState ∧
    (d = U64MAX →
      process_withdraw_stake env pool = Except.error Err.StakeNotDeactivated) ∧
    (d ≠ U64MAX → env.currentEpoch ≤ d →
      process_withdraw_stake env pool = Except.error Err.CooldownNotPassed) ∧
    (d ≠ U64MAX → d < env.currentEpoch →
      process_withdraw_stake env pool =
        Except.ok { pool := pool, withdrawn := env.stakeAccountLamports }) := by
  have hi : pool.isInit = true := by simp [StakePool.isInit]; omega
  have hi2 : pool2.isInit = true := by simp [StakePool.isInit]; omega
  refine ⟨?_, fun h => ?_, fun h1 h2 => ?_, fun h1 h2 => ?_⟩
  · cases h2 : env2.stakeState <;>
      simp_all [process_withdraw_stake, StakeStateV2.isStake, hsig2, hop2, hoa2, hi2, hsup2]
  · simp [process_withdraw_stake, hsig, hop, hoa, hi, hsup, hst, hw, h]
  · simp [process_withdraw_stake, hsig, hop, hoa, hi, hsup, hst, hw, h1, h2]
  · simp [process_withdraw_stake, hsig, hop, hoa, hi, hsup, hder, hst, hw, h1,
      Nat.not_le.mpr h2]

/-- Claim C4 witness at a concrete deactivated record past cooldown and a
concrete non-delegated record. -/
theorem claim_C4_withdraw_gating_witness :
    process_withdraw_stake
        { programId := [10], stakeProgramId := [12], userIsSigner := true
          userKey := [13], stakePoolOwner := [10], stakeAccountOwner := [12]
          suppliedWithdrawAuthority := [3], derivedWithdrawAuthority := [3]
          stakeState := StakeStateV2.Uninitialized, stakeAccountLamports := 500
          currentEpoch := 10 }
        samplePool = Except.error Err.WrongStakeState ∧
    ((3 : Nat) = U64MAX →
      process_withdraw_stake
        { programId := [10], stakeProgramId := [12], userIsSigner := true
          userKey := [13], stakePoolOwner := [10], stakeAccountOwner := [12]
          suppliedWithdrawAuthority := [3], derivedWithdrawAuthority := [3]
          stakeState := StakeStateV2.Stake [2] [3] 3, stakeAccountLamports := 777
          currentEpoch := 10 }
        samplePool = Except.error Err.StakeNotDeactivated) ∧
    ((3 : Nat) ≠ U64MAX → (10 : Nat) ≤ 3 →
      process_withdraw_stake
        { programId := [10], stakeProgramId := [12], userIsSigner := true
          userKey := [13], stakePoolOwner := [10], stakeAccountOwner := [12]
          suppliedWithdrawAuthority := [3], derivedWithdrawAuthority := [3]
          stakeState := StakeStateV2.Stake [2] [3] 3, stakeAccountLamports := 777
          currentEpoch := 10 }
        samplePool = Except.error Err.CooldownNotPassed) ∧
    ((3 : Nat) ≠ U64MAX → (3 : Nat) < 10 →
      process_withdraw_stake
        { programId := [10], stakeProgramId := [12], userIsSigner := true
          userKey := [13], stakePoolOwner := [10], stakeAccountOwner := [12]
          suppliedWithdrawAuthority := [3], derivedWithdrawAuthority := [3]
          stakeState := StakeStateV2.Stake [2] [3] 3, stakeAccountLamports := 777
          currentEpoch := 10 }
        samplePool = Except.ok { pool := samplePool, withdrawn := 777 }) :=
  claim_C4_withdraw_gating
    { programId := [10], stakeProgramId := [12], userIsSigner := true
      userKey := [13], stakePoolOwner := [10], stakeAccountOwner := [12]
      suppliedWithdrawAuthority := [3], derivedWithdrawAuthority := [3]
      stakeState := StakeStateV2.Stake [2] [3] 3, stakeAccountLamports := 777
      currentEpoch := 10 }
    samplePool [2] [3] 3
    (by decide) (by decide) (by decide) (by decide) (by decide) (by decide)
    (by decide) (by decide)
    { programId := [10], stakeProgramId := [12], userIsSigner := true
      userKey := [13], stakePoolOwner := [10], stakeAccountOwner := [12]
      suppliedWithdrawAuthority := [3], derivedWithdrawAuthority := [3]
      stakeState := StakeStateV2.Uninitialized, stakeAccountLamports := 500
      currentEpoch := 10 }
    samplePool
    (by decide) (by decide) (by decide) (by decide) (by decide) (by decide)

/-! ## Claim C2: unstake withdrawal rule -/

/-- Product of two u64 values fits the u128 intermediate. -/
theorem mulU64_lt_U128 {a b : Nat} (ha : a < U64MOD) (hb : b < U64MOD) :
    a * b < U128MOD := by
  have h1 : a ≤ U64MOD - 1 := by omega
  have h2 : b ≤ U64MOD - 1 := by omega
  have h3 : a * b ≤ (U64MOD - 1) * (U64MOD - 1) := Nat.mul_le_mul h1 h2
  have h4 : (U64MOD - 1) * (U64MOD - 1) < U128MOD := by norm_num [U64MOD, U128MOD]
  omega

/-- Claim C2: for every initialized, unpaused pool and Unstake with a
positive token amount, the native amount owed is
floor(token_amount * total_staked / total_shares) through checked 128-bit
arithmetic when both totals are nonzero and 0 otherwise; on success the
registry is updated by checked subtraction of the native amount and of the
token amount, and a would-be-negative result aborts with MathOverflow. -/
theorem claim_C2_unstake (env : UnstakeEnv) (pool : StakePool) (t : Nat)
    (hsig : env.userIsSigner = true)
    (hop : env.stakePoolOwner = env.programId)
    (hom : env.poolMintOwner = env.splTokenId)
    (hou : env.userTokenOwner = env.splTokenId)
    (hinit : 0 < pool.version)
    (hpause : pool.paused = false)
    (ht0 : t ≠ 0)
    (ht : t < U64MOD)
    (hts : pool.total_staked < U64MOD)
    (hsa : env.derivedStakeAuthority = pool.stake_authority)
    (hacct : env.derivedStakeAccount = env.suppliedStakeAccount) :
    (0 < pool.total_shares → 0 < pool.total_staked →
      (t * pool.total_staked / pool.total_shares < U64MOD →
        t * pool.total_staked / pool.total_shares ≤ pool.total_staked →
        t ≤ pool.total_shares →
        process_unstake env pool t = Except.ok
          { pool := { pool with
              total_staked := pool.total_staked - t * pool.total_staked / pool.total_shares
              total_shares := pool.total_shares - t }
            burned := t
            solOwed := t * pool.total_staked / pool.total_shares }) ∧
      (U64MOD ≤ t * pool.total_staked / pool.total_shares →
        process_unstake env pool t = Except.error Err.MathOverflow) ∧
      (t * pool.total_staked / pool.total_shares < U64MOD →
        (pool.total_staked < t * pool.total_staked / pool.total_shares ∨
          pool.total_shares < t) →
        process_unstake env pool t = Except.error Err.MathOverflow)) ∧
    (¬ (0 < pool.total_shares ∧ 0 < pool.total_staked) →
      (t ≤ pool.total_shares →
        process_unstake env pool t = Except.ok
          { pool := { pool with
              total_staked := pool.total_staked
              total_shares := pool.total_shares - t }
            burned := t
            solOwed := 0 }) ∧
      (pool.total_shares < t →
        process_unstake env pool t = Except.error Err.MathOverflow)) := by
  have hi : pool.isInit = true := by simp [StakePool.isInit]; omega
  have hmul : t * pool.total_staked < U128MOD := mulU64_lt_U128 ht hts
  refine ⟨fun hsh hst => ⟨fun hq hq1 hq2 => ?_, fun hq => ?_, fun hq hor => ?_⟩,
    fun hno => ⟨fun hle => ?_, fun hlt => ?_⟩⟩
  · have hsh0 : pool.total_shares ≠ 0 := by omega
    simp [process_unstake, solToWithdraw, checkedMulU128, checkedDivU128,
      u128toU64, checkedSubU64, hsig, hop, hom, hou, hi, hpause, ht0, hsh, hst,
      hsh0, hmul, hq, hq1, hq2, hsa, hacct]
  · have hsh0 : pool.total_shares ≠ 0 := by omega
    simp [process_unstake, solToWithdraw, checkedMulU128, checkedDivU128,
      u128toU64, hsig, hop, hom, hou, hi, hpause, ht0, hsh, hst, hsh0, hmul,
      Nat.not_lt.mpr hq]
  · have hsh0 : pool.total_shares ≠ 0 := by omega
    rcases hor with hor | hor
    · simp [process_unstake, solToWithdraw, checkedMulU128, checkedDivU128,
        u128toU64, checkedSubU64, hsig, hop, hom, hou, hi, hpause, ht0, hsh,
        hst, hsh0, hmul, hq, hsa, hacct, Nat.not_le.mpr hor]
    · by_cases hqs : t * pool.total_staked / pool.total_shares ≤ pool.total_staked
      · simp [process_unstake, solToWithdraw, checkedMulU128, checkedDivU128,
          u128toU64, checkedSubU64, hsig, hop, hom, hou, hi, hpause, ht0, hsh,
          hst, hsh0, hmul, hq, hqs, hsa, hacct, Nat.not_le.mpr hor]
      · simp [process_unstake, solToWithdraw, checkedMulU128, checkedDivU128,
          u128toU64, checkedSubU64, hsig, hop, hom, hou, hi, hpause, ht0, hsh,
          hst, hsh0, hmul, hq, hqs, hsa, hacct]
  · simp [process_unstake, solToWithdraw, checkedSubU64, hsig, hop, hom, hou,
      hi, hpause, ht0, hno, hle, hsa, hacct]
  · simp [process_unstake, solToWithdraw, checkedSubU64, hsig, hop, hom, hou,
      hi, hpause, ht0, hno, hsa, hacct, Nat.not_le.mpr hlt]

/-- Claim C2 witness at a concrete pool with totals 100/50 and a
10-token Unstake owing 20 native units. -/
theorem claim_C2_unstake_witness :
    ((0 : Nat) < 50 → (0 : Nat) < 100 →
      ((10 * 100 / 50 : Nat) < U64MOD →
        (10 * 100 / 50 : Nat) ≤ 100 → (10 : Nat) ≤ 50 →
        process_unstake
          { programId := [10], splTokenId := [11], userIsSigner := true
            userKey := [13], stakePoolOwner := [10], poolMintOwner := [11]
            userTokenOwner := [11], suppliedMint := [4], suppliedStakeAccount := [14]
            derivedStakeAuthority := [2], derivedStakeAccount := [14] }
          { samplePool with total_staked := 100, total_shares := 50 } 10 = Except.ok
          { pool := { { samplePool with total_staked := 100, total_shares := 50 } with
              total_staked := 100 - 10 * 100 / 50, total_shares := 50 - 10 }
            burned := 10
            solOwed := 10 * 100 / 50 }) ∧
      (U64MOD ≤ (10 * 100 / 50 : Nat) →
        process_unstake
          { programId := [10], splTokenId := [11], userIsSigner := true
            userKey := [13], stakePoolOwner := [10], poolMintOwner := [11]
            userTokenOwner := [11], suppliedMint := [4], suppliedStakeAccount := [14]
            derivedStakeAuthority := [2], derivedStakeAccount := [14] }
          { samplePool with total_staked := 100, total_shares := 50 } 10 =
          Except.error Err.MathOverflow) ∧
      ((10 * 100 / 50 : Nat) < U64MOD →
        ((100 : Nat) < 10 * 100 / 50 ∨ (50 : Nat) < 10) →
        process_unstake
          { programId := [10], splTokenId := [11], userIsSigner := true
            userKey := [13], stakePoolOwner := [10], poolMintOwner := [11]
            userTokenOwner := [11], suppliedMint := [4], suppliedStakeAccount := [14]
            derivedStakeAuthority := [2], derivedStakeAccount := [14] }
          { samplePool with total_staked := 100, total_shares := 50 } 10 =
          Except.error Err.MathOverflow)) ∧
    (¬ ((0 : Nat) < 50 ∧ (0 : Nat) < 100) →
      ((10 : Nat) ≤ 50 →
        process_unstake
          { programId := [10], splTokenId := [11], userIsSigner := true
            userKey := [13], stakePoolOwner := [10], poolMintOwner := [11]
            userTokenOwner := [11], suppliedMint := [4], suppliedStakeAccount := [14]
            derivedStakeAuthority := [2], derivedStakeAccount := [14] }
          { samplePool with total_staked := 100, total_shares := 50 } 10 = Except.ok
          { pool := { { samplePool with total_staked := 100, total_shares := 50 } with
              total_staked := 100, total_shares := 50 - 10 }
            burned := 10
            solOwed := 0 }) ∧
      ((50 : Nat) < 10 →
        process_unstake
          { programId := [10], splTokenId := [11], userIsSigner := true
            userKey := [13], stakePoolOwner := [10], poolMintOwner := [11]
            userTokenOwner := [11], suppliedMint := [4], suppliedStakeAccount := [14]
            derivedStakeAuthority := [2], derivedStakeAccount := [14] }
          { samplePool with total_staked := 100, total_shares := 50 } 10 =
          Except.error Err.MathOverflow)) :=
  claim_C2_unstake
    { programId := [10], splTokenId := [11], userIsSigner := true
      userKey := [13], stakePoolOwner := [10], poolMintOwner := [11]
      userTokenOwner := [11], suppliedMint := [4], suppliedStakeAccount := [14]
      derivedStakeAuthority := [2], derivedStakeAccount := [14] }
    { samplePool with total_staked := 100, total_shares := 50 } 10
    (by decide) (by decide) (by decide) (by decide) (by decide) (by decide)
    (by decide) (by decide) (by decide) (by decide) (by decide)

/-! ## Claim C1: stake minting rule -/

/-- A concrete well-formed Stake call environment. -/
def stakeEnvA : StakeEnv :=
  { programId := [10], splTokenId := [11], stakeProgramId := [12]
    userIsSigner := true, userKey := [13], stakePoolOwner := [10]
    poolMintOwner := [11], userTokenOwner := [11], suppliedMint := [4]
    suppliedValidatorVote := [6], suppliedStakeAuthority := [2]
    suppliedStakeAccount := [14], derivedStakeAuthority := [2]
    derivedStakeAccount := [14], stakeAccountLamports := 0
    stakeAccountOwner := [12] }

/-- A concrete pool with totals 1000 staked / 2 shares. -/
def c1pool : StakePool := { samplePool with total_staked := 1000, total_shares := 2 }

/-- Claim C1: for every initialized, unpaused pool and every in-bounds
Stake(amount): when total_shares or total_staked is zero the minted token
amount equals amount, otherwise it equals
floor(amount * total_shares / total_staked) computed through checked
128-bit arithmetic; a quotient that does not fit u64 aborts with
MathOverflow and a zero token amount aborts with CalculationFailure,
in both cases before any registry write (the model returns the error with
no new pool value, and the host discards all writes on abort). -/
theorem claim_C1_stake_minting (env : StakeEnv) (pool : StakePool) (amount : Nat)
    (hsig : env.userIsSigner = true)
    (hop : env.stakePoolOwner = env.programId)
    (hom : env.poolMintOwner = env.splTokenId)
    (hou : env.userTokenOwner = env.splTokenId)
    (hinit : 0 < pool.version)
    (hpause : pool.paused = false)
    (hmin : pool.min_stake ≤ amount)
    (hmax : amount ≤ pool.max_stake)
    (hvote : env.suppliedValidatorVote = pool.helius_validator_vote)
    (ham : amount < U64MOD)
    (hshb : pool.total_shares < U64MOD)
    (hsa : env.derivedStakeAuthority = pool.stake_authority)
    (hsup : env.suppliedStakeAuthority = pool.stake_authority)
    (hacct : env.derivedStakeAccount = env.suppliedStakeAccount)
    (hrec : env.stakeAccountLamports = 0 ∨ env.stakeAccountOwner = env.stakeProgramId) :
    (pool.total_shares = 0 ∨ pool.total_staked = 0 →
      (amount = 0 → process_stake env pool amount = Except.error Err.CalculationFailure) ∧
      (amount ≠ 0 → pool.total_staked + amount < U64MOD →
        pool.total_shares + amount < U64MOD →
        process_stake env pool amount = Except.ok
          { pool := { pool with
              total_staked := pool.total_staked + amount
              total_shares := pool.total_shares + amount }
            minted := amount
            mintUsed := env.suppliedMint
            createdRecord := if env.stakeAccountLamports = 0 then
              some { staker := pool.stake_authority, withdrawer := env.userKey }
              else none })) ∧
    (pool.total_shares ≠ 0 → pool.total_staked ≠ 0 →
      (U64MOD ≤ amount * pool.total_shares / pool.total_staked →
        process_stake env pool amount = Except.error Err.MathOverflow) ∧
      (amount * pool.total_shares / pool.total_staked = 0 →
        process_stake env pool amount = Except.error Err.CalculationFailure) ∧
      (amount * pool.total_shares / pool.total_staked < U64MOD →
        amount * pool.total_shares / pool.total_staked ≠ 0 →
        pool.total_staked + amount < U64MOD →
        pool.total_shares + amount * pool.total_shares / pool.total_staked < U64MOD →
        process_stake env pool amount = Except.ok
          { pool := { pool with
              total_staked := pool.total_staked + amount
              total_shares :=
                pool.total_shares + amount * pool.total_shares / pool.total_staked }
            minted := amount * pool.total_shares / pool.total_staked
            mintUsed := env.suppliedMint
            createdRecord := if env.stakeAccountLamports = 0 then
              some { staker := pool.stake_authority, withdrawer := env.userKey }
              else none })) := by
  have hi : pool.isInit = true := by simp [StakePool.isInit]; omega
  have hmul : amount * pool.total_shares < U128MOD := mulU64_lt_U128 ham hshb
  have hnmin : ¬ amount < pool.min_stake := Nat.not_lt.mpr hmin
  have hnmax : ¬ pool.max_stake < amount := Nat.not_lt.mpr hmax
  refine ⟨fun hor => ⟨fun h0 => ?_, fun h0 ha1 ha2 => ?_⟩,
    fun h1 h2 => ⟨fun hq => ?_, fun hq => ?_, fun hq hq0 ha1 ha2 => ?_⟩⟩
  · simp [process_stake, poolTokensToMint, hsig, hop, hom, hou, hi, hpause,
      hnmin, hnmax, hvote, hor, h0]
    omega
  · have hno : ¬ (env.stakeAccountLamports ≠ 0 ∧
        env.stakeAccountOwner ≠ env.stakeProgramId) := by tauto
    simp [process_stake, poolTokensToMint, checkedAddU64, hsig, hop, hom,
      hou, hi, hpause, hnmin, hnmax, hvote, hor, h0, hsa, hsup, hacct, hno,
      ha1, ha2]
  · simp [process_stake, poolTokensToMint, checkedMulU128, checkedDivU128,
      u128toU64, hsig, hop, hom, hou, hi, hpause, hnmin, hnmax, hvote, h1, h2,
      hmul, Nat.not_lt.mpr hq]
  · have hz : (0 : Nat) < U64MOD := by norm_num [U64MOD]
    simp [process_stake, poolTokensToMint, checkedMulU128, checkedDivU128,
      u128toU64, hsig, hop, hom, hou, hi, hpause, hnmin, hnmax, hvote, h1, h2,
      hmul, hq, hz]
  · have hno : ¬ (env.stakeAccountLamports ≠ 0 ∧
        env.stakeAccountOwner ≠ env.stakeProgramId) := by tauto
    simp [process_stake, poolTokensToMint, checkedMulU128, checkedDivU128,
      u128toU64, checkedAddU64, hsig, hop, hom, hou, hi, hpause, hnmin,
      hnmax, hvote, h1, h2, hmul, hq, hq0, hsa, hsup, hacct, hno, ha1, ha2]

/-- Claim C1 witness at a concrete pool with totals 1000/2 and a 500
deposit minting floor(500 * 2 / 1000) = 1 token. -/
theorem claim_C1_stake_minting_witness :
    (c1pool.total_shares = 0 ∨ c1pool.total_staked = 0 →
      ((500 : Nat) = 0 →
        process_stake stakeEnvA c1pool 500 = Except.error Err.CalculationFailure) ∧
      ((500 : Nat) ≠ 0 → c1pool.total_staked + 500 < U64MOD →
        c1pool.total_shares + 500 < U64MOD →
        process_stake stakeEnvA c1pool 500 = Except.ok
          { pool := { c1pool with
              total_staked := c1pool.total_staked + 500
              total_shares := c1pool.total_shares + 500 }
            minted := 500
            mintUsed := stakeEnvA.suppliedMint
            createdRecord := if stakeEnvA.stakeAccountLamports = 0 then
              some { staker := c1pool.stake_authority, withdrawer := stakeEnvA.userKey }
              else none })) ∧
    (c1pool.total_shares ≠ 0 → c1pool.total_staked ≠ 0 →
      (U64MOD ≤ 500 * c1pool.total_shares / c1pool.total_staked →
        process_stake stakeEnvA c1pool 500 = Except.error Err.MathOverflow) ∧
      (500 * c1pool.total_shares / c1pool.total_staked = 0 →
        process_stake stakeEnvA c1pool 500 = Except.error Err.CalculationFailure) ∧
      (500 * c1pool.total_shares / c1pool.total_staked < U64MOD →
        500 * c1pool.total_shares / c1pool.total_staked ≠ 0 →
        c1pool.total_staked + 500 < U64MOD →
        c1pool.total_shares + 500 * c1pool.total_shares / c1pool.total_staked < U64MOD →
        process_stake stakeEnvA c1pool 500 = Except.ok
          { pool := { c1pool with
              total_staked := c1pool.total_staked + 500
              total_shares :=
                c1pool.total_shares + 500 * c1pool.total_shares / c1pool.total_staked }
            minted := 500 * c1pool.total_shares / c1pool.total_staked
            mintUsed := stakeEnvA.suppliedMint
            createdRecord := if stakeEnvA.stakeAccountLamports = 0 then
              some { staker := c1pool.stake_authority, withdrawer := stakeEnvA.userKey }
              else none })) :=
  claim_C1_stake_minting stakeEnvA c1pool 500
    (by decide) (by decide) (by decide) (by decide) (by decide) (by decide)
    (by decide) (by decide) (by decide) (by decide) (by decide) (by decide)
    (by decide) (by decide) (Or.inl (by decide))

/-! ## Claim C3: authority fields of a newly created stake record -/

/-- Claim C3 evidence: a successful first deposit (stake record lamports
zero, so the create + initialize path of processor.rs 421-464 runs)
creates the record with staker = the controller-derived pool
stake-authority but withdrawer = the user key (processor.rs 451-454),
which equals neither controller-derived authority of the pool; and
process_withdraw_stake rejects exactly this withdrawer with
InvalidStakeAccountAuthority (processor.rs 825-828), so a record created
by this program cannot pass the withdraw handler's own authority check. -/
theorem claim_C3_withdrawer_is_user :
    process_stake stakeEnvA { samplePool with total_staked := 7, total_shares := 7 } 5 =
      Except.ok
        { pool := { samplePool with total_staked := 12, total_shares := 12 }
          minted := 5
          mintUsed := [4]
          createdRecord := some { staker := [2], withdrawer := [13] } } ∧
    stakeEnvA.userKey = [13] ∧
    samplePool.stake_authority = [2] ∧
    samplePool.withdraw_authority = [3] ∧
    ([13] : Pubkey) ≠ samplePool.withdraw_authority ∧
    ([13] : Pubkey) ≠ samplePool.stake_authority ∧
    process_withdraw_stake
      { programId := [10], stakeProgramId := [12], userIsSigner := true
        userKey := [13], stakePoolOwner := [10], stakeAccountOwner := [12]
        suppliedWithdrawAuthority := [3], derivedWithdrawAuthority := [3]
        stakeState := StakeStateV2.Stake [2] [13] 5, stakeAccountLamports := 500
        currentEpoch := 10 }
      { samplePool with total_staked := 12, total_shares := 12 } =
      Except.error Err.InvalidStakeAccountAuthority := by
  refine ⟨by decide, by decide, by decide, by decide, by decide, by decide, by decide⟩

/-! ## Claim C5: ratio symmetry of Stake then Unstake -/

/-- A concrete well-formed Unstake call environment. -/
def unstakeEnvA : UnstakeEnv :=
  { programId := [10], splTokenId := [11], userIsSigner := true
    userKey := [13], stakePoolOwner := [10], poolMintOwner := [11]
    userTokenOwner := [11], suppliedMint := [4], suppliedStakeAccount := [14]
    derivedStakeAuthority := [2], derivedStakeAccount := [14] }

/-- Claim C5 counterexample: the claim as stated quantifies over every
pool state; at totals 3 staked / 1 share, Stake(1000000000) mints
333333333 tokens and the immediate Unstake(333333333) computes
native_amount 999999999, not 1000000000. -/
theorem claim_C5_counterexample :
    process_stake stakeEnvA
      { samplePool with total_staked := 3, total_shares := 1 } 1000000000 =
      Except.ok
        { pool := { samplePool with total_staked := 1000000003, total_shares := 333333334 }
          minted := 333333333
          mintUsed := [4]
          createdRecord := some { staker := [2], withdrawer := [13] } } ∧
    process_unstake unstakeEnvA
      { samplePool with total_staked := 1000000003, total_shares := 333333334 }
      333333333 =
      Except.ok
        { pool := { samplePool with total_staked := 4, total_shares := 1 }
          burned := 333333333
          solOwed := 999999999 } ∧
    (999999999 : Nat) ≠ 1000000000 := by
  refine ⟨by decide, by decide, by decide⟩

/-- Claim C5 as amended: restricted to pool states whose totals are equal
(total_staked = total_shares) — the invariant every state reachable
through Stake and Unstake alone satisfies, since rewards are never rebased
into the totals — and to a positive in-bounds amount, Stake(amount) mints
exactly amount tokens and the immediate Unstake of those tokens computes
native_amount = amount, restoring both totals. -/
theorem claim_C5_ratio_symmetry (senv : StakeEnv) (uenv : UnstakeEnv)
    (pool : StakePool) (amount : Nat)
    (hs1 : senv.userIsSigner = true)
    (hs2 : senv.stakePoolOwner = senv.programId)
    (hs3 : senv.poolMintOwner = senv.splTokenId)
    (hs4 : senv.userTokenOwner = senv.splTokenId)
    (hs5 : senv.suppliedValidatorVote = pool.helius_validator_vote)
    (hs6 : senv.derivedStakeAuthority = pool.stake_authority)
    (hs7 : senv.suppliedStakeAuthority = pool.stake_authority)
    (hs8 : senv.derivedStakeAccount = senv.suppliedStakeAccount)
    (hs9 : senv.stakeAccountLamports = 0 ∨ senv.stakeAccountOwner = senv.stakeProgramId)
    (hu1 : uenv.userIsSigner = true)
    (hu2 : uenv.stakePoolOwner = uenv.programId)
    (hu3 : uenv.poolMintOwner = uenv.splTokenId)
    (hu4 : uenv.userTokenOwner = uenv.splTokenId)
    (hu5 : uenv.derivedStakeAuthority = pool.stake_authority)
    (hu6 : uenv.derivedStakeAccount = uenv.suppliedStakeAccount)
    (hinit : 0 < pool.version)
    (hpause : pool.paused = false)
    (heq : pool.total_staked = pool.total_shares)
    (h0 : 0 < amount)
    (hmin : pool.min_stake ≤ amount)
    (hmax : amount ≤ pool.max_stake)
    (hadd : pool.total_staked + amount < U64MOD) :
    process_stake senv pool amount = Except.ok
      { pool := { pool with
          total_staked := pool.total_staked + amount
          total_shares := pool.total_shares + amount }
        minted := amount
        mintUsed := senv.suppliedMint
        createdRecord := if senv.stakeAccountLamports = 0 then
          some { staker := pool.stake_authority, withdrawer := senv.userKey }
          else none } ∧
    process_unstake uenv
      { pool with
        total_staked := pool.total_staked + amount
        total_shares := pool.total_shares + amount }
      amount = Except.ok
      { pool := pool, burned := amount, solOwed := amount } := by
  have hi : pool.isInit = true := by simp [StakePool.isInit]; omega
  have hnmin : ¬ amount < pool.min_stake := Nat.not_lt.mpr hmin
  have hnmax : ¬ pool.max_stake < amount := Nat.not_lt.mpr hmax
  have ham : amount < U64MOD := by omega
  have hne : amount ≠ 0 := by omega
  have hshb : pool.total_shares < U64MOD := by omega
  have hadd2 : pool.total_shares + amount < U64MOD := by omega
  have htok : poolTokensToMint amount pool.total_shares pool.total_staked =
      Except.ok amount := by
    by_cases hz : pool.total_shares = 0 ∨ pool.total_staked = 0
    · simp [poolTokensToMint, hz]
    · push_neg at hz
      have hposh : 0 < pool.total_shares := Nat.pos_of_ne_zero hz.1
      have hlt : amount * pool.total_shares < U128MOD := mulU64_lt_U128 ham hshb
      have hdc : amount * pool.total_shares / pool.total_staked = amount := by
        rw [heq]; exact Nat.mul_div_cancel amount hposh
      simp [poolTokensToMint, hz.1, hz.2, checkedMulU128, hlt, checkedDivU128,
        u128toU64, hdc, ham]
  have hsol : solToWithdraw amount (pool.total_staked + amount)
      (pool.total_shares + amount) = Except.ok amount := by
    have hpos1 : 0 < pool.total_shares + amount := by omega
    have hpos2 : 0 < pool.total_staked + amount := by omega
    have hne0 : ¬ (pool.total_shares + amount = 0) := by omega
    have hlt : amount * (pool.total_staked + amount) < U128MOD :=
      mulU64_lt_U128 ham hadd
    have hdc : amount * (pool.total_staked + amount) / (pool.total_shares + amount)
        = amount := by
      rw [heq]; exact Nat.mul_div_cancel amount hpos1
    simp [solToWithdraw, hpos1, hpos2, hne0, checkedMulU128, hlt,
      checkedDivU128, u128toU64, hdc, ham]
  constructor
  · have hno : ¬ (senv.stakeAccountLamports ≠ 0 ∧
        senv.stakeAccountOwner ≠ senv.stakeProgramId) := by tauto
    simp [process_stake, hs1, hs2, hs3, hs4, hi, hpause, hnmin, hnmax, hs5,
      htok, hne, hs6, hs7, hs8, hno, checkedAddU64, hadd, hadd2]
  · have hrw : ({ pool with paused := false } : StakePool) = pool := by
      rw [← hpause]
    simp [process_unstake, hu1, hu2, hu3, hu4, StakePool.isInit, hinit,
      hpause, hne, hsol, hu5, hu6, checkedSubU64, Nat.le_add_left, hrw]

/-- A concrete pool with equal totals 20/20 for the ratio-symmetry witness. -/
def c5wpool : StakePool := { samplePool with total_staked := 20, total_shares := 20 }

/-- Claim C5 witness: at equal totals 20/20, Stake(7) mints 7 and the
immediate Unstake(7) owes exactly 7, restoring the totals. -/
theorem claim_C5_ratio_symmetry_witness :
    process_stake stakeEnvA c5wpool 7 = Except.ok
      { pool := { c5wpool with
          total_staked := c5wpool.total_staked + 7
          total_shares := c5wpool.total_shares + 7 }
        minted := 7
        mintUsed := stakeEnvA.suppliedMint
        createdRecord := if stakeEnvA.stakeAccountLamports = 0 then
          some { staker := c5wpool.stake_authority, withdrawer := stakeEnvA.userKey }
          else none } ∧
    process_unstake unstakeEnvA
      { c5wpool with
        total_staked := c5wpool.total_staked + 7
        total_shares := c5wpool.total_shares + 7 }
      7 = Except.ok { pool := c5wpool, burned := 7, solOwed := 7 } :=
  claim_C5_ratio_symmetry stakeEnvA unstakeEnvA c5wpool 7
    (by decide) (by decide) (by decide) (by decide) (by decide) (by decide)
    (by decide) (by decide) (Or.inl (by decide)) (by decide) (by decide)
    (by decide) (by decide) (by decide) (by decide) (by decide) (by decide)
    (by decide) (by decide) (by decide) (by decide) (by decide)

/-! ## Claim C6: forgery rejection -/

/-- Claim C6 counterexample: the claim as stated includes the mint among
the accounts whose forgery is rejected, but process_stake never compares
the supplied mint account against the registry mint (only its owning
subsystem is checked), so a Stake supplying a mint at a wrong address
succeeds, minting on the supplied account. -/
theorem claim_C6_counterexample :
    ({ stakeEnvA with suppliedMint := [99] } : StakeEnv).suppliedMint ≠
      samplePool.mint ∧
    process_stake { stakeEnvA with suppliedMint := [99] }
      { samplePool with total_staked := 10, total_shares := 10 } 5 =
      Except.ok
        { pool := { samplePool with total_staked := 15, total_shares := 15 }
          minted := 5
          mintUsed := [99]
          createdRecord := some { staker := [2], withdrawer := [13] } } := by
  refine ⟨by decide, by decide⟩

/-- Claim C6 as amended: in every handler, each caller-supplied account
that the handler does re-derive or compare against the registry
(the pinned validator, the stake authority and the user stake record in
Stake; the stake authority and the stake record in Unstake; the withdraw
authority in WithdrawStake; the pool and mint PDAs in Initialize) fails
with the corresponding address-mismatch error when it differs, before any
registry write; the mint supplied to Stake and Unstake is excluded, since
those handlers check only its owning subsystem, never its address. -/
theorem claim_C6_forgery_rejection
    (senv : StakeEnv) (spool : StakePool) (samt : Nat)
    (hs1 : senv.userIsSigner = true)
    (hs2 : senv.stakePoolOwner = senv.programId)
    (hs3 : senv.poolMintOwner = senv.splTokenId)
    (hs4 : senv.userTokenOwner = senv.splTokenId)
    (hs5 : 0 < spool.version)
    (hs6 : spool.paused = false)
    (hs7 : spool.min_stake ≤ samt)
    (hs8 : samt ≤ spool.max_stake)
    (stok : Nat)
    (hs9 : poolTokensToMint samt spool.total_shares spool.total_staked = Except.ok stok)
    (hs10 : stok ≠ 0)
    (uenv : UnstakeEnv) (upool : StakePool) (uamt : Nat)
    (hu1 : uenv.userIsSigner = true)
    (hu2 : uenv.stakePoolOwner = uenv.programId)
    (hu3 : uenv.poolMintOwner = uenv.splTokenId)
    (hu4 : uenv.userTokenOwner = uenv.splTokenId)
    (hu5 : 0 < upool.version)
    (hu6 : upool.paused = false)
    (hu7 : uamt ≠ 0)
    (usol : Nat)
    (hu8 : solToWithdraw uamt upool.total_staked upool.total_shares = Except.ok usol)
    (wenv : WithdrawEnv) (wpool : StakePool)
    (hw1 : wenv.userIsSigner = true)
    (hw2 : wenv.stakePoolOwner = wenv.programId)
    (hw3 : wenv.stakeAccountOwner = wenv.stakeProgramId)
    (hw4 : 0 < wpool.version)
    (ienv : InitEnv) (iname : List Nat) (ifee : Nat) (ivote : Pubkey)
    (hi1 : ienv.authorityIsSigner = true)
    (hi2 : ifee ≤ 100)
    (hi3 : 3 ≤ iname.length)
    (hi4 : iname.length ≤ 32) :
    (senv.suppliedValidatorVote ≠ spool.helius_validator_vote →
      process_stake senv spool samt = Except.error Err.InvalidStakeAccountDelegation) ∧
    (senv.suppliedValidatorVote = spool.helius_validator_vote →
      (senv.derivedStakeAuthority ≠ spool.stake_authority ∨
        senv.derivedStakeAuthority ≠ senv.suppliedStakeAuthority) →
      process_stake senv spool samt = Except.error Err.InvalidStakeAuthority) ∧
    (senv.suppliedValidatorVote = spool.helius_validator_vote →
      senv.derivedStakeAuthority = spool.stake_authority →
      senv.derivedStakeAuthority = senv.suppliedStakeAuthority →
      senv.derivedStakeAccount ≠ senv.suppliedStakeAccount →
      process_stake senv spool samt = Except.error Err.InvalidSeeds) ∧
    (uenv.derivedStakeAuthority ≠ upool.stake_authority →
      process_unstake uenv upool uamt = Except.error Err.InvalidStakeAuthority) ∧
    (uenv.derivedStakeAuthority = upool.stake_authority →
      uenv.derivedStakeAccount ≠ uenv.suppliedStakeAccount →
      process_unstake uenv upool uamt = Except.error Err.InvalidSeeds) ∧
    (wenv.suppliedWithdrawAuthority ≠ wpool.withdraw_authority →
      process_withdraw_stake wenv wpool = Except.error Err.InvalidWithdrawAuthority) ∧
    (ienv.derivedPoolKey ≠ ienv.suppliedPoolKey →
      process_init ienv iname ifee ivote = Except.error Err.InvalidSeeds) ∧
    (ienv.derivedPoolKey = ienv.suppliedPoolKey →
      ienv.derivedMintKey ≠ ienv.suppliedMintKey →
      process_init ienv iname ifee ivote = Except.error Err.InvalidSeeds) := by
  have hsi : spool.isInit = true := by simp [StakePool.isInit]; omega
  have hui : upool.isInit = true := by simp [StakePool.isInit]; omega
  have hwi : wpool.isInit = true := by simp [StakePool.isInit]; omega
  have hnmin : ¬ samt < spool.min_stake := Nat.not_lt.mpr hs7
  have hnmax : ¬ spool.max_stake < samt := Nat.not_lt.mpr hs8
  have hnfee : ¬ 100 < ifee := Nat.not_lt.mpr hi2
  have hnname : ¬ (iname.length < 3 ∨ 32 < iname.length) := by omega
  refine ⟨fun h => ?_, fun h1 h2 => ?_, fun h1 h2 h3 h4 => ?_, fun h => ?_,
    fun h1 h2 => ?_, fun h => ?_, fun h => ?_, fun h1 h2 => ?_⟩
  · simp [process_stake, hs1, hs2, hs3, hs4, hsi, hs6, hnmin, hnmax, h]
  · simp [process_stake, hs1, hs2, hs3, hs4, hsi, hs6, hnmin, hnmax, h1, hs9,
      hs10, h2]
  · simp [process_stake, hs1, hs2, hs3, hs4, hsi, hs6, hnmin, hnmax, h1, hs9,
      hs10, h2, h3, h4]
    exact h2.symm.trans h3
  · simp [process_unstake, hu1, hu2, hu3, hu4, hui, hu6, hu7, hu8, h]
  · simp [process_unstake, hu1, hu2, hu3, hu4, hui, hu6, hu7, hu8, h1, h2]
  · simp [process_withdraw_stake, hw1, hw2, hw3, hwi, h]
  · simp [process_init, hi1, hnfee, hnname, h]
  · simp [process_init, hi1, hnfee, hnname, h1, h2]

/-- Claim C6 witness: concrete forged stake record in Stake and Unstake, a
forged withdraw authority in WithdrawStake and a forged mint PDA at
initialization. -/
theorem claim_C6_forgery_rejection_witness :
    (({ stakeEnvA with suppliedStakeAccount := [77] } : StakeEnv).suppliedValidatorVote ≠
        c1pool.helius_validator_vote →
      process_stake { stakeEnvA with suppliedStakeAccount := [77] } c1pool 500 =
        Except.error Err.InvalidStakeAccountDelegation) ∧
    (({ stakeEnvA with suppliedStakeAccount := [77] } : StakeEnv).suppliedValidatorVote =
        c1pool.helius_validator_vote →
      (({ stakeEnvA with suppliedStakeAccount := [77] } : StakeEnv).derivedStakeAuthority ≠
          c1pool.stake_authority ∨
        ({ stakeEnvA with suppliedStakeAccount := [77] } : StakeEnv).derivedStakeAuthority ≠
          ({ stakeEnvA with suppliedStakeAccount := [77] } : StakeEnv).suppliedStakeAuthority) →
      process_stake { stakeEnvA with suppliedStakeAccount := [77] } c1pool 500 =
        Except.error Err.InvalidStakeAuthority) ∧
    (({ stakeEnvA with suppliedStakeAccount := [77] } : StakeEnv).suppliedValidatorVote =
        c1pool.helius_validator_vote →
      ({ stakeEnvA with suppliedStakeAccount := [77] } : StakeEnv).derivedStakeAuthority =
        c1pool.stake_authority →
      ({ stakeEnvA with suppliedStakeAccount := [77] } : StakeEnv).derivedStakeAuthority =
        ({ stakeEnvA with suppliedStakeAccount := [77] } : StakeEnv).suppliedStakeAuthority →
      ({ stakeEnvA with suppliedStakeAccount := [77] } : StakeEnv).derivedStakeAccount ≠
        ({ stakeEnvA with suppliedStakeAccount := [77] } : StakeEnv).suppliedStakeAccount →
      process_stake { stakeEnvA with suppliedStakeAccount := [77] } c1pool 500 =
        Except.error Err.InvalidSeeds) ∧
    (({ unstakeEnvA with suppliedStakeAccount := [77] } : UnstakeEnv).derivedStakeAuthority ≠
        ({ samplePool with total_staked := 100, total_shares := 50 } : StakePool).stake_authority →
      process_unstake { unstakeEnvA with suppliedStakeAccount := [77] }
        { samplePool with total_staked := 100, total_shares := 50 } 10 =
        Except.error Err.InvalidStakeAuthority) ∧
    (({ unstakeEnvA with suppliedStakeAccount := [77] } : UnstakeEnv).derivedStakeAuthority =
        ({ samplePool with total_staked := 100, total_shares := 50 } : StakePool).stake_authority →
      ({ unstakeEnvA with suppliedStakeAccount := [77] } : UnstakeEnv).derivedStakeAccount ≠
        ({ unstakeEnvA with suppliedStakeAccount := [77] } : UnstakeEnv).suppliedStakeAccount →
      process_unstake { unstakeEnvA with suppliedStakeAccount := [77] }
        { samplePool with total_staked := 100, total_shares := 50 } 10 =
        Except.error Err.InvalidSeeds) ∧
    (({ programId := [10], stakeProgramId := [12], userIsSigner := true
        userKey := [13], stakePoolOwner := [10], stakeAccountOwner := [12]
        suppliedWithdrawAuthority := [88], derivedWithdrawAuthority := [3]
        stakeState := StakeStateV2.Stake [2] [3] 3, stakeAccountLamports := 777
        currentEpoch := 10 } : WithdrawEnv).suppliedWithdrawAuthority ≠
        samplePool.withdraw_authority →
      process_withdraw_stake
        { programId := [10], stakeProgramId := [12], userIsSigner := true
          userKey := [13], stakePoolOwner := [10], stakeAccountOwner := [12]
          suppliedWithdrawAuthority := [88], derivedWithdrawAuthority := [3]
          stakeState := StakeStateV2.Stake [2] [3] 3, stakeAccountLamports := 777
          currentEpoch := 10 }
        samplePool = Except.error Err.InvalidWithdrawAuthority) ∧
    (({ authorityIsSigner := true, authorityKey := [1], suppliedPoolKey := [20]
        derivedPoolKey := [20], suppliedMintKey := [21], derivedMintKey := [22]
        derivedStakeAuthority := [2], derivedWithdrawAuthority := [3]
        stakeAuthorityBump := 255, withdrawAuthorityBump := 254
        managerFeeKey := [7], treasuryFeeKey := [8], currentEpoch := 3 } : InitEnv).derivedPoolKey ≠
        ({ authorityIsSigner := true, authorityKey := [1], suppliedPoolKey := [20]
           derivedPoolKey := [20], suppliedMintKey := [21], derivedMintKey := [22]
           derivedStakeAuthority := [2], derivedWithdrawAuthority := [3]
           stakeAuthorityBump := 255, withdrawAuthorityBump := 254
           managerFeeKey := [7], treasuryFeeKey := [8], currentEpoch := 3 } : InitEnv).suppliedPoolKey →
      process_init
        { authorityIsSigner := true, authorityKey := [1], suppliedPoolKey := [20]
          derivedPoolKey := [20], suppliedMintKey := [21], derivedMintKey := [22]
          derivedStakeAuthority := [2], derivedWithdrawAuthority := [3]
          stakeAuthorityBump := 255, withdrawAuthorityBump := 254
          managerFeeKey := [7], treasuryFeeKey := [8], currentEpoch := 3 }
        [65, 66, 67] 5 [6] = Except.error Err.InvalidSeeds) ∧
    (({ authorityIsSigner := true, authorityKey := [1], suppliedPoolKey := [20]
        derivedPoolKey := [20], suppliedMintKey := [21], derivedMintKey := [22]
        derivedStakeAuthority := [2], derivedWithdrawAuthority := [3]
        stakeAuthorityBump := 255, withdrawAuthorityBump := 254
        managerFeeKey := [7], treasuryFeeKey := [8], currentEpoch := 3 } : InitEnv).derivedPoolKey =
        ({ authorityIsSigner := true, authorityKey := [1], suppliedPoolKey := [20]
           derivedPoolKey := [20], suppliedMintKey := [21], derivedMintKey := [22]
           derivedStakeAuthority := [2], derivedWithdrawAuthority := [3]
           stakeAuthorityBump := 255, withdrawAuthorityBump := 254
           managerFeeKey := [7], treasuryFeeKey := [8], currentEpoch := 3 } : InitEnv).suppliedPoolKey →
      ({ authorityIsSigner := true, authorityKey := [1], suppliedPoolKey := [20]
         derivedPoolKey := [20], suppliedMintKey := [21], derivedMintKey := [22]
         derivedStakeAuthority := [2], derivedWithdrawAuthority := [3]
         stakeAuthorityBump := 255, withdrawAuthorityBump := 254
         managerFeeKey := [7], treasuryFeeKey := [8], currentEpoch := 3 } : InitEnv).derivedMintKey ≠
        ({ authorityIsSigner := true, authorityKey := [1], suppliedPoolKey := [20]
           derivedPoolKey := [20], suppliedMintKey := [21], derivedMintKey := [22]
           derivedStakeAuthority := [2], derivedWithdrawAuthority := [3]
           stakeAuthorityBump := 255, withdrawAuthorityBump := 254
           managerFeeKey := [7], treasuryFeeKey := [8], currentEpoch := 3 } : InitEnv).suppliedMintKey →
      process_init
        { authorityIsSigner := true, authorityKey := [1], suppliedPoolKey := [20]
          derivedPoolKey := [20], suppliedMintKey := [21], derivedMintKey := [22]
          derivedStakeAuthority := [2], derivedWithdrawAuthority := [3]
          stakeAuthorityBump := 255, withdrawAuthorityBump := 254
          managerFeeKey := [7], treasuryFeeKey := [8], currentEpoch := 3 }
        [65, 66, 67] 5 [6] = Except.error Err.InvalidSeeds) :=
  claim_C6_forgery_rejection
    { stakeEnvA with suppliedStakeAccount := [77] } c1pool 500
    (by decide) (by decide) (by decide) (by decide) (by decide) (by decide)
    (by decide) (by decide) 1 (by decide) (by decide)
    { unstakeEnvA with suppliedStakeAccount := [77] }
    { samplePool with total_staked := 100, total_shares := 50 } 10
    (by decide) (by decide) (by decide) (by decide) (by decide) (by decide)
    (by decide) 20 (by decide)
    { programId := [10], stakeProgramId := [12], userIsSigner := true
      userKey := [13], stakePoolOwner := [10], stakeAccountOwner := [12]
      suppliedWithdrawAuthority := [88], derivedWithdrawAuthority := [3]
      stakeState := StakeStateV2.Stake [2] [3] 3, stakeAccountLamports := 777
      currentEpoch := 10 }
    samplePool
    (by decide) (by decide) (by decide) (by decide)
    { authorityIsSigner := true, authorityKey := [1], suppliedPoolKey := [20]
      derivedPoolKey := [20], suppliedMintKey := [21], derivedMintKey := [22]
      derivedStakeAuthority := [2], derivedWithdrawAuthority := [3]
      stakeAuthorityBump := 255, withdrawAuthorityBump := 254
      managerFeeKey := [7], treasuryFeeKey := [8], currentEpoch := 3 }
    [65, 66, 67] 5 [6]
    (by decide) (by decide) (by decide) (by decide)

/-! ## Claim C7: the two-phase mint write of Initialize -/

/-- The initial record built by process_initialize is well formed whenever
the environment supplies 32-byte keys, byte-sized bumps and a u64 epoch. -/
theorem initialStakePool_WF (env : InitEnv) (name : List Nat) (fee : Nat)
    (vote : Pubkey)
    (hfee : fee ≤ 100) (hname : name.length ≤ 32)
    (hA : env.authorityKey.length = 32)
    (hSA : env.derivedStakeAuthority.length = 32)
    (hWA : env.derivedWithdrawAuthority.length = 32)
    (hMF : env.managerFeeKey.length = 32)
    (hTF : env.treasuryFeeKey.length = 32)
    (hV : vote.length = 32)
    (hbs : env.stakeAuthorityBump < 256)
    (hbw : env.withdrawAuthorityBump < 256)
    (hep : env.currentEpoch < U64MOD) :
    (initialStakePool env name fee vote).WF := by
  simp only [StakePool.WF, initialStakePool]
  refine ⟨by norm_num, by omega, hbs, hbw, by norm_num [U64MOD], by norm_num [U64MOD],
    hep, by norm_num [U64MOD], by norm_num [U64MOD], hA, hSA, hWA,
    by simp [pubkeyDefault], by simp [pubkeyDefault], hV, hMF, hTF,
    by simp, by omega⟩

/-- Changing only the mint of a well-formed record to another 32-byte
address keeps it well formed. -/
theorem WF_set_mint (p : StakePool) (h : p.WF) (m : Pubkey) (hm : m.length = 32) :
    ({ p with mint := m } : StakePool).WF := by
  obtain ⟨h1, h2, h3, h4, h5, h6, h7, h8, h9, h10, h11, h12, h13, h14, h15,
    h16, h17, h18, h19⟩ := h
  exact ⟨h1, h2, h3, h4, h5, h6, h7, h8, h9, h10, h11, h12, hm, h14, h15, h16,
    h17, h18, h19⟩

/-- Claim C7: a successful Initialize persists the serialized initial
record and then writes the 32 mint bytes at offset
1 + 3*32 + 4 + L + 1 + 2*8, which is exactly the serialized offset of the
mint field, so the persisted bytes deserialize to the initial record with
only the mint field replaced by the derived mint address. -/
theorem claim_C7_mint_patch (env : InitEnv) (name : List Nat) (fee : Nat)
    (vote : Pubkey)
    (hsig : env.authorityIsSigner = true)
    (hfee : fee ≤ 100)
    (hn3 : 3 ≤ name.length)
    (hn32 : name.length ≤ 32)
    (hpk : env.derivedPoolKey = env.suppliedPoolKey)
    (hmk : env.derivedMintKey = env.suppliedMintKey)
    (hA : env.authorityKey.length = 32)
    (hSA : env.derivedStakeAuthority.length = 32)
    (hWA : env.derivedWithdrawAuthority.length = 32)
    (hMF : env.managerFeeKey.length = 32)
    (hTF : env.treasuryFeeKey.length = 32)
    (hV : vote.length = 32)
    (hM : env.suppliedMintKey.length = 32)
    (hbs : env.stakeAuthorityBump < 256)
    (hbw : env.withdrawAuthorityBump < 256)
    (hep : env.currentEpoch < U64MOD) :
    process_init env name fee vote = Except.ok
      (writeBytesAt (serializeStakePool (initialStakePool env name fee vote))
        (mintOffset name.length) env.suppliedMintKey) ∧
    mintOffset name.length = 1 + 3 * 32 + 4 + name.length + 1 + 2 * 8 ∧
    deserializeStakePool
      (writeBytesAt (serializeStakePool (initialStakePool env name fee vote))
        (mintOffset name.length) env.suppliedMintKey) =
      some { initialStakePool env name fee vote with mint := env.suppliedMintKey } := by
  have hWF := initialStakePool_WF env name fee vote hfee hn32 hA hSA hWA hMF hTF
    hV hbs hbw hep
  have hmint32 : (initialStakePool env name fee vote).mint.length = 32 := by
    simp [initialStakePool, pubkeyDefault]
  have hlen : mintOffset name.length + 32 ≤
      (serializeStakePool (initialStakePool env name fee vote)).length := by
    have hh := serHead_length (initialStakePool env name fee vote) hWF
    have hn : (initialStakePool env name fee vote).name.length = name.length := by
      simp [initialStakePool]
    rw [hn] at hh
    simp [serializeStakePool, List.length_append, hh, hmint32]
  have hnname : ¬ (name.length < 3 ∨ 32 < name.length) := by omega
  have hnfee : ¬ 100 < fee := Nat.not_lt.mpr hfee
  refine ⟨?_, rfl, ?_⟩
  · simp [process_init, hsig, hnfee, hnname, hpk, hmk, hlen]
  · have hpatch := patch_mint (initialStakePool env name fee vote) hWF
      env.suppliedMintKey hM
    have hn : (initialStakePool env name fee vote).name.length = name.length := by
      simp [initialStakePool]
    rw [hn] at hpatch
    rw [hpatch]
    exact deserialize_serialize _ (WF_set_mint _ hWF _ hM)

/-- A concrete Initialize environment with 32-byte keys. -/
def c7env : InitEnv :=
  { authorityIsSigner := true, authorityKey := List.replicate 32 1
    suppliedPoolKey := List.replicate 32 2, derivedPoolKey := List.replicate 32 2
    suppliedMintKey := List.replicate 32 3, derivedMintKey := List.replicate 32 3
    derivedStakeAuthority := List.replicate 32 4
    derivedWithdrawAuthority := List.replicate 32 5
    stakeAuthorityBump := 255, withdrawAuthorityBump := 254
    managerFeeKey := List.replicate 32 7, treasuryFeeKey := List.replicate 32 8
    currentEpoch := 3 }

/-- Claim C7 witness at a concrete Initialize with the 3-byte name ABC. -/
theorem claim_C7_mint_patch_witness :
    process_init c7env [65, 66, 67] 5 (List.replicate 32 6) = Except.ok
      (writeBytesAt
        (serializeStakePool (initialStakePool c7env [65, 66, 67] 5 (List.replicate 32 6)))
        (mintOffset (3 : Nat)) c7env.suppliedMintKey) ∧
    mintOffset (3 : Nat) = 1 + 3 * 32 + 4 + 3 + 1 + 2 * 8 ∧
    deserializeStakePool
      (writeBytesAt
        (serializeStakePool (initialStakePool c7env [65, 66, 67] 5 (List.replicate 32 6)))
        (mintOffset (3 : Nat)) c7env.suppliedMintKey) =
      some { initialStakePool c7env [65, 66, 67] 5 (List.replicate 32 6) with
             mint := c7env.suppliedMintKey } :=
  claim_C7_mint_patch c7env [65, 66, 67] 5 (List.replicate 32 6)
    (by decide) (by decide) (by decide) (by decide) (by decide) (by decide)
    (by decide) (by decide) (by decide) (by decide) (by decide) (by decide)
    (by decide) (by decide) (by decide) (by decide)

/-! ## Claim C9: frame conditions of the four mutating handlers -/

/-- A successful Stake only rewrites the two accounting totals. -/
theorem process_stake_frame (env : StakeEnv) (pool : StakePool) (amt : Nat)
    (r : StakeResult) (h : process_stake env pool amt = Except.ok r) :
    r.pool = { pool with
      total_staked := r.pool.total_staked
      total_shares := r.pool.total_shares } := by
  unfold process_stake at h
  by_cases c1 : env.userIsSigner = true
  case neg => rw [if_pos c1] at h; exact Except.noConfusion h
  rw [if_neg (not_not_intro c1)] at h
  by_cases c2 : env.stakePoolOwner = env.programId
  case neg => rw [if_pos c2] at h; exact Except.noConfusion h
  rw [if_neg (not_not_intro c2)] at h
  by_cases c3 : env.poolMintOwner = env.splTokenId
  case neg => rw [if_pos c3] at h; exact Except.noConfusion h
  rw [if_neg (not_not_intro c3)] at h
  by_cases c4 : env.userTokenOwner = env.splTokenId
  case neg => rw [if_pos c4] at h; exact Except.noConfusion h
  rw [if_neg (not_not_intro c4)] at h
  by_cases c5 : pool.isInit = true
  case neg => rw [if_pos c5] at h; exact Except.noConfusion h
  rw [if_neg (not_not_intro c5)] at h
  by_cases c6 : pool.paused = true
  case pos => rw [if_pos c6] at h; exact Except.noConfusion h
  rw [if_neg c6] at h
  by_cases c7 : amt < pool.min_stake
  case pos => rw [if_pos c7] at h; exact Except.noConfusion h
  rw [if_neg c7] at h
  by_cases c8 : amt > pool.max_stake
  case pos => rw [if_pos c8] at h; exact Except.noConfusion h
  rw [if_neg c8] at h
  by_cases c9 : env.suppliedValidatorVote = pool.helius_validator_vote
  case neg => rw [if_pos c9] at h; exact Except.noConfusion h
  rw [if_neg (not_not_intro c9)] at h
  cases htok : poolTokensToMint amt pool.total_shares pool.total_staked with
  | error e => simp only [htok] at h; exact Except.noConfusion h
  | ok tokens =>
    simp only [htok] at h
    by_cases c10 : tokens = 0
    case pos => rw [if_pos c10] at h; exact Except.noConfusion h
    rw [if_neg c10] at h
    by_cases c11 : env.derivedStakeAuthority ≠ pool.stake_authority ∨
      env.derivedStakeAuthority ≠ env.suppliedStakeAuthority
    case pos => rw [if_pos c11] at h; exact Except.noConfusion h
    rw [if_neg c11] at h
    by_cases c12 : env.derivedStakeAccount = env.suppliedStakeAccount
    case neg => rw [if_pos c12] at h; exact Except.noConfusion h
    rw [if_neg (not_not_intro c12)] at h
    by_cases c13 : env.stakeAccountLamports ≠ 0 ∧
      env.stakeAccountOwner ≠ env.stakeProgramId
    case pos => rw [if_pos c13] at h; exact Except.noConfusion h
    rw [if_neg c13] at h
    cases ha1 : checkedAddU64 pool.total_staked amt with
    | none => simp only [ha1] at h; exact Except.noConfusion h
    | some newStaked =>
      simp only [ha1] at h
      cases ha2 : checkedAddU64 pool.total_shares tokens with
      | none => simp only [ha2] at h; exact Except.noConfusion h
      | some newShares =>
        simp only [ha2] at h
        obtain rfl := Except.ok.inj h
        rfl

/-- A successful Unstake only rewrites the two accounting totals. -/
theorem process_unstake_frame (env : UnstakeEnv) (pool : StakePool) (amt : Nat)
    (r : UnstakeResult) (h : process_unstake env pool amt = Except.ok r) :
    r.pool = { pool with
      total_staked := r.pool.total_staked
      total_shares := r.pool.total_shares } := by
  unfold process_unstake at h
  by_cases c1 : env.userIsSigner = true
  case neg => rw [if_pos c1] at h; exact Except.noConfusion h
  rw [if_neg (not_not_intro c1)] at h
  by_cases c2 : env.stakePoolOwner = env.programId
  case neg => rw [if_pos c2] at h; exact Except.noConfusion h
  rw [if_neg (not_not_intro c2)] at h
  by_cases c3 : env.poolMintOwner = env.splTokenId
  case neg => rw [if_pos c3] at h; exact Except.noConfusion h
  rw [if_neg (not_not_intro c3)] at h
  by_cases c4 : env.userTokenOwner = env.splTokenId
  case neg => rw [if_pos c4] at h; exact Except.noConfusion h
  rw [if_neg (not_not_intro c4)] at h
  by_cases c5 : pool.isInit = true
  case neg => rw [if_pos c5] at h; exact Except.noConfusion h
  rw [if_neg (not_not_intro c5)] at h
  by_cases c6 : pool.paused = true
  case pos => rw [if_pos c6] at h; exact Except.noConfusion h
  rw [if_neg c6] at h
  by_cases c7 : amt = 0
  case pos => rw [if_pos c7] at h; exact Except.noConfusion h
  rw [if_neg c7] at h
  cases hsol : solToWithdraw amt pool.total_staked pool.total_shares with
  | error e => simp only [hsol] at h; exact Except.noConfusion h
  | ok sol =>
    simp only [hsol] at h
    by_cases c8 : env.derivedStakeAuthority = pool.stake_authority
    case neg => rw [if_pos c8] at h; exact Except.noConfusion h
    rw [if_neg (not_not_intro c8)] at h
    by_cases c9 : env.derivedStakeAccount = env.suppliedStakeAccount
    case neg => rw [if_pos c9] at h; exact Except.noConfusion h
    rw [if_neg (not_not_intro c9)] at h
    cases hs1 : checkedSubU64 pool.total_staked sol with
    | none => simp only [hs1] at h; exact Except.noConfusion h
    | some newStaked =>
      simp only [hs1] at h
      cases hs2 : checkedSubU64 pool.total_shares amt with
      | none => simp only [hs2] at h; exact Except.noConfusion h
      | some newShares =>
        simp only [hs2] at h
        obtain rfl := Except.ok.inj h
        rfl

/-- A successful epoch-marker update only rewrites last_update_epoch. -/
theorem process_claim_rewards_frame (env : ClaimEnv) (pool p' : StakePool)
    (h : process_claim_rewards env pool = Except.ok p') :
    p' = { pool with last_update_epoch := p'.last_update_epoch } := by
  unfold process_claim_rewards at h
  repeat' split at h
  all_goals first
    | exact Except.noConfusion h
    | (obtain rfl := Except.ok.inj h; rfl)

/-- A successful WithdrawStake never writes the registry. -/
theorem process_withdraw_stake_frame (env : WithdrawEnv) (pool : StakePool)
    (r : WithdrawResult) (h : process_withdraw_stake env pool = Except.ok r) :
    r.pool = pool := by
  unfold process_withdraw_stake at h
  repeat' split at h
  all_goals first
    | exact Except.noConfusion h
    | (obtain rfl := Except.ok.inj h; rfl)

/-- Claim C9: every operation changes only its designated registry fields:
a successful Stake or Unstake only the two accounting totals, a successful
epoch-marker update only last_update_epoch, and a successful WithdrawStake
nothing at all. -/
theorem claim_C9_frame
    (senv : StakeEnv) (spool : StakePool) (samt : Nat) (sr : StakeResult)
    (hs : process_stake senv spool samt = Except.ok sr)
    (uenv : UnstakeEnv) (upool : StakePool) (uamt : Nat) (ur : UnstakeResult)
    (hu : process_unstake uenv upool uamt = Except.ok ur)
    (cenv : ClaimEnv) (cpool cp' : StakePool)
    (hc : process_claim_rewards cenv cpool = Except.ok cp')
    (wenv : WithdrawEnv) (wpool : StakePool) (wr : WithdrawResult)
    (hw : process_withdraw_stake wenv wpool = Except.ok wr) :
    sr.pool = { spool with
      total_staked := sr.pool.total_staked
      total_shares := sr.pool.total_shares } ∧
    ur.pool = { upool with
      total_staked := ur.pool.total_staked
      total_shares := ur.pool.total_shares } ∧
    cp' = { cpool with last_update_epoch := cp'.last_update_epoch } ∧
    wr.pool = wpool :=
  ⟨process_stake_frame senv spool samt sr hs,
   process_unstake_frame uenv upool uamt ur hu,
   process_claim_rewards_frame cenv cpool cp' hc,
   process_withdraw_stake_frame wenv wpool wr hw⟩

/-- Concrete expected results for the frame witness. -/
def c9sr : StakeResult :=
  { pool := { samplePool with total_staked := 1500, total_shares := 3 }
    minted := 1
    mintUsed := [4]
    createdRecord := some { staker := [2], withdrawer := [13] } }

/-- The pool the witness Unstake starts from. -/
def c9upool : StakePool := { samplePool with total_staked := 100, total_shares := 50 }

/-- The expected result of the witness Unstake. -/
def c9ur : UnstakeResult :=
  { pool := { samplePool with total_staked := 80, total_shares := 40 }
    burned := 10
    solOwed := 20 }

/-- The expected result of the witness epoch-marker update. -/
def c9cp : StakePool := { samplePool with last_update_epoch := 7 }

/-- The expected result of the witness WithdrawStake. -/
def c9wr : WithdrawResult := { pool := samplePool, withdrawn := 777 }

/-- Claim C9 witness: one concrete successful call of each handler. -/
theorem claim_C9_frame_witness :
    c9sr.pool = { c1pool with
      total_staked := c9sr.pool.total_staked
      total_shares := c9sr.pool.total_shares } ∧
    c9ur.pool = { c9upool with
      total_staked := c9ur.pool.total_staked
      total_shares := c9ur.pool.total_shares } ∧
    c9cp = { samplePool with last_update_epoch := c9cp.last_update_epoch } ∧
    c9wr.pool = samplePool :=
  claim_C9_frame stakeEnvA c1pool 500 c9sr (by decide)
    unstakeEnvA c9upool 10 c9ur (by decide)
    { programId := [10], userIsSigner := true, stakePoolOwner := [10], currentEpoch := 7 }
    samplePool c9cp (by decide)
    { programId := [10], stakeProgramId := [12], userIsSigner := true
      userKey := [13], stakePoolOwner := [10], stakeAccountOwner := [12]
      suppliedWithdrawAuthority := [3], derivedWithdrawAuthority := [3]
      stakeState := StakeStateV2.Stake [2] [3] 3, stakeAccountLamports := 777
      currentEpoch := 10 }
    samplePool c9wr (by decide)

end ObeLST
